import Mathlib

/-!
Shallow embedding of the captainahab monitoring engine (src/app/main.py):
the suspicion-scoring function, cluster detector, event classifier, dedup
store, cursor store, watchlist manager and the scan passes, together with
theorems settling the specification claims.

Conventions of the embedding:
* Python floats are modelled as exact rationals (ℚ); the single genuinely
  irrational computation, `statistics.stdev` (a square root), is modelled
  over ℝ with `Real.sqrt`.
* Millisecond timestamps are ℤ, as in the source.
* SQLite tables are modelled by their logical content: the `seen` table by a
  `Finset String` of digests, the `cursors` table by an association list,
  `market_trades` by a list of rows keyed by `trade_id`, `vip_wallets` by a
  duplicate-free list of addresses.
* Effectful lookups (wallet-age lookup, HTTP fetches, clock reads) are
  passed in as explicit parameters describing their outcome.
-/

namespace CaptainAhab

/-- Default configuration values of src/app/main.py (lines 16-35). -/
def LOOKBACK_MINUTES : ℤ := 10

def USD_SHORT_THRESHOLD : ℚ := 25000000

def USD_DEPOSIT_THRESHOLD : ℚ := 20000000

def VIP_LOOKBACK_HOURS : ℤ := 48

def CLUSTER_TIME_WINDOW_MINUTES : ℚ := 60

def CLUSTER_MIN_SCORE : ℤ := 70

def CLUSTER_MIN_NOTIONAL : ℚ := 50000000

def MARKET_MIN_TRADE_SIZE : ℚ := 5000000

/-- Python `str.lower()` (Lean's `String.toLower`), written via the
character list so that it evaluates by kernel reduction. -/
def pyLower (s : String) : String := ⟨s.data.map Char.toLower⟩

/-- Python `str.upper()` (Lean's `String.toUpper`), written via the
character list so that it evaluates by kernel reduction. -/
def pyUpper (s : String) : String := ⟨s.data.map Char.toUpper⟩

/-- Python `int(x)` on a float: truncation toward zero, on ℚ. -/
def pyInt (q : ℚ) : ℤ := if 0 ≤ q then Int.floor q else -(Int.floor (-q))

/-- One row of the `market_trades` table (`ensure_db`, lines 206-214), as
produced by `get_recent_market_trades` (lines 1219-1249). -/
structure Trade where
  trade_id : String
  wallet : String
  token : String
  side : String
  notional : ℚ
  timestamp_ms : ℤ
  wallet_age_days : ℤ
deriving DecidableEq, Repr

/-- The `cluster_data` signal bundle built in `detect_trading_cluster`
(lines 723-731) and consumed by `calculate_suspicion_score`. -/
structure ClusterData where
  wallet_count : ℕ
  total_notional : ℚ
  time_span : ℚ
  alignment : ℚ
  avg_wallet_age : ℚ
  size_clustering_cv : ℝ
  cross_token_count : ℕ

/-- Timing-tightness signal of `calculate_suspicion_score` (lines 599-610). -/
def timingScore (time_span : ℚ) : ℤ :=
  if time_span < 1 then 30
  else if time_span < 5 then 25
  else if time_span < 15 then 15
  else if time_span < 30 then 10
  else if time_span < 60 then 5
  else 0

/-- Notional-size signal (lines 612-615): `min(20, int(total/1e8 * 8))`. -/
def notionalScore (total_notional : ℚ) : ℤ :=
  min 20 (pyInt (total_notional / 100000000 * 8))

/-- Wallet-count signal (lines 617-619): `min(15, wallet_count * 3)`. -/
def walletCountScore (wallet_count : ℕ) : ℤ :=
  min 15 ((wallet_count : ℤ) * 3)

/-- Wallet-age signal (lines 621-628): newer wallets score higher. -/
def ageScore (avg_wallet_age : ℚ) : ℤ :=
  if avg_wallet_age < 3 then 10
  else if avg_wallet_age < 7 then 7
  else if avg_wallet_age < 14 then 4
  else 0

/-- Directional-alignment signal (lines 630-637). -/
def alignmentScore (alignment : ℚ) : ℤ :=
  if alignment > 0.95 then 10
  else if alignment > 0.9 then 8
  else if alignment > 0.8 then 5
  else 0

/-- Size-homogeneity signal (lines 639-646), keyed on the coefficient of
variation of trade notionals. -/
noncomputable def sizeCvScore (size_cv : ℝ) : ℤ :=
  if size_cv < 0.1 then 15
  else if size_cv < 0.2 then 10
  else if size_cv < 0.3 then 5
  else 0

/-- Cross-token-coordination signal (lines 648-653). -/
def crossTokenScore (cross_token_count : ℕ) : ℤ :=
  if cross_token_count ≥ 3 then 10
  else if cross_token_count ≥ 2 then 5
  else 0

/-- Timing-precision bonus (lines 655-657): everything within 60 seconds. -/
def timingPrecisionBonus (time_span : ℚ) : ℤ :=
  if time_span < 1 then 10 else 0

/-- `calculate_suspicion_score` (lines 592-659): the 0-100 insider-trading
likelihood heuristic, accumulated signal by signal and capped at 100. -/
noncomputable def calculate_suspicion_score (d : ClusterData) : ℤ :=
  min 100
    (timingScore d.time_span + notionalScore d.total_notional +
      walletCountScore d.wallet_count + ageScore d.avg_wallet_age +
      alignmentScore d.alignment + sizeCvScore d.size_clustering_cv +
      crossTokenScore d.cross_token_count + timingPrecisionBonus d.time_span)

/-- `sha_key(*parts)` (lines 169-176) hashes each part followed by a `|`
separator.  The SHA-256 digest is modelled by the (injective) string that is
actually hashed — a collision-free idealization of the hash. -/
def sha_key (parts : List String) : String :=
  String.join (parts.map (fun p => p ++ "|"))

/-- The side encodings `detect_trading_cluster` counts as sells (line 695). -/
def sellSideLabels : List String := ["sell", "short", "a", "ask"]

/-- The side encodings `detect_trading_cluster` counts as buys (line 696). -/
def buySideLabels : List String := ["buy", "long", "b", "bid"]

/-- Python `max` over a nonempty list of integers (`[]` is unreachable at
every use site, guarded by the length checks). -/
def listMax (l : List ℤ) : ℤ :=
  match l with
  | [] => 0
  | x :: xs => xs.foldl max x

/-- Python `min` over a nonempty list of integers. -/
def listMin (l : List ℤ) : ℤ :=
  match l with
  | [] => 0
  | x :: xs => xs.foldl min x

/-- `max(set(tokens), key=tokens.count)` with the `"Multiple"` fallback
(line 707).  Python's tie-break (set iteration order) is unspecified; the
model picks an argmax of the occurrence count over the deduplicated list. -/
def mostFrequent (tokens : List String) : String :=
  if tokens = [] then "Multiple"
  else (tokens.dedup.argmax (fun tok => tokens.count tok)).getD "Multiple"

/-- The positive trade notionals selected by `detect_size_clustering`
(line 552). -/
def positiveNotionals (trades : List Trade) : List ℚ :=
  (trades.filter (fun t => 0 < t.notional)).map (fun t => t.notional)

/-- `statistics.mean`. -/
def sampleMean (l : List ℚ) : ℚ := l.sum / (l.length : ℚ)

/-- The square of `statistics.stdev`: the sample variance
`Σ(x-mean)²/(n-1)`. -/
def sampleVariance (l : List ℚ) : ℚ :=
  (l.map (fun x => (x - sampleMean l) ^ 2)).sum / ((l.length : ℚ) - 1)

/-- `detect_size_clustering` (lines 545-564): coefficient of variation of
the positive trade notionals; `1.0` when fewer than two of them exist or
the mean degenerates.  `statistics.stdev` is the sample standard deviation
`sqrt(sampleVariance)`, guarded (redundantly) by the `len > 1` check. -/
noncomputable def detect_size_clustering (trades : List Trade) : ℝ :=
  let notionals := positiveNotionals trades
  if notionals.length < 2 then 1
  else if sampleMean notionals = 0 then 1
  else
    (if 1 < notionals.length then Real.sqrt ((sampleVariance notionals : ℚ) : ℝ)
     else 0) / ((sampleMean notionals : ℚ) : ℝ)

/-- Insert a token into a wallet's token set (`wallet_tokens[wallet].add`),
with the token sets of `detect_cross_token_coordination` modelled as
duplicate-free lists in an association list. -/
def addWalletToken (m : List (String × List String)) (wallet token : String) :
    List (String × List String) :=
  match m.lookup wallet with
  | none => m ++ [(wallet, [token])]
  | some toks =>
      m.map (fun p => if p.1 = wallet then
        (p.1, if token ∈ toks then toks else toks ++ [token]) else p)

/-- `detect_cross_token_coordination` (lines 566-590): the number of
distinct tokens traded by wallets that each trade more than one token. -/
def detect_cross_token_coordination (trades : List Trade) : ℕ :=
  let wallet_tokens := trades.foldl
    (fun m t => if t.wallet ≠ "" ∧ t.token ≠ "" then
        addWalletToken m t.wallet t.token else m) []
  let multi := wallet_tokens.filter (fun p => 1 < p.2.length)
  ((multi.map (fun p => p.2)).foldl
    (fun acc toks => toks.foldl (fun a tok => if tok ∈ a then a else a ++ [tok]) acc)
    []).length

/-- Timestamps of a trade set (`detect_trading_cluster`, line 677). -/
def clusterTimestamps (trades : List Trade) : List ℤ :=
  trades.map (fun t => t.timestamp_ms)

/-- Distinct participant wallets (`list(set(...))`, line 678). -/
def clusterWallets (trades : List Trade) : List String :=
  (trades.map (fun t => t.wallet)).dedup

/-- Time span in minutes between earliest and latest trade (line 684). -/
def clusterTimeSpan (trades : List Trade) : ℚ :=
  ((listMax (clusterTimestamps trades) - listMin (clusterTimestamps trades) : ℤ) : ℚ) /
    (1000 * 60)

/-- Total notional of the trade set (line 689). -/
def clusterTotalNotional (trades : List Trade) : ℚ :=
  (trades.map (fun t => t.notional)).sum

/-- Lower-cased sides of the trade set (line 694). -/
def clusterSides (trades : List Trade) : List String :=
  trades.map (fun t => pyLower t.side)

/-- Sell-side count (line 695). -/
def sellCount (trades : List Trade) : ℕ :=
  ((clusterSides trades).filter (fun s => s ∈ sellSideLabels)).length

/-- Buy-side count (line 696). -/
def buyCount (trades : List Trade) : ℕ :=
  ((clusterSides trades).filter (fun s => s ∈ buySideLabels)).length

/-- Directional alignment `max(sell, buy) / len(sides)` with the `0.5`
fallback for an empty side list (line 697). -/
def clusterAlignment (trades : List Trade) : ℚ :=
  if (clusterSides trades).length = 0 then 0.5
  else ((max (sellCount trades) (buyCount trades) : ℕ) : ℚ) /
    ((clusterSides trades).length : ℚ)

/-- Dominant direction (line 703): SHORT iff strictly more sells. -/
def clusterDirection (trades : List Trade) : String :=
  if buyCount trades < sellCount trades then "SHORT" else "LONG"

/-- Most frequent instrument among contributing trades (lines 706-707). -/
def clusterToken (trades : List Trade) : String :=
  mostFrequent ((trades.map (fun t => t.token)).filter (fun tok => tok ≠ ""))

/-- Average participant wallet age (lines 710-714), with the per-wallet age
lookup abstracted as `ages` and the `30` fallback for no wallets. -/
def clusterAvgAge (ages : String → ℤ) (trades : List Trade) : ℚ :=
  let wallet_ages := (clusterWallets trades).map ages
  if wallet_ages.length = 0 then 30
  else ((wallet_ages.map (fun a => (a : ℚ))).sum / (wallet_ages.length : ℚ))

/-- The signal bundle assembled by `detect_trading_cluster` (lines 723-731). -/
noncomputable def clusterData (ages : String → ℤ) (trades : List Trade) : ClusterData :=
  { wallet_count := (clusterWallets trades).length
    total_notional := clusterTotalNotional trades
    time_span := clusterTimeSpan trades
    alignment := clusterAlignment trades
    avg_wallet_age := clusterAvgAge ages trades
    size_clustering_cv := detect_size_clustering trades
    cross_token_count := detect_cross_token_coordination trades }

/-- A detected cluster (the dict returned at lines 745-760). -/
structure Cluster where
  cluster_id : String
  wallets : List String
  trades : List Trade
  token : String
  direction : String
  score : ℤ
  total_notional : ℚ
  time_window : ℚ
  first_trade_ms : ℤ
  last_trade_ms : ℤ
  trade_count : ℕ
  alignment : ℚ
  size_clustering_cv : ℝ
  cross_token_count : ℕ

/-- `detect_trading_cluster` (lines 661-760).  The per-wallet account-age
lookup (an awaited call to `get_wallet_age_days`) is passed in as `ages`.
Returns `none` when any gate fails, otherwise the scored cluster. -/
noncomputable def detect_trading_cluster (ages : String → ℤ) (trades : List Trade)
    (window_minutes : ℚ) : Option Cluster :=
  if trades.length < 3 then none
  else if (clusterWallets trades).length < 2 then none
  else if clusterTimeSpan trades > window_minutes then none
  else if clusterTotalNotional trades < CLUSTER_MIN_NOTIONAL then none
  else if clusterAlignment trades < 0.8 then none
  else if calculate_suspicion_score (clusterData ages trades) < CLUSTER_MIN_SCORE then none
  else some
    { cluster_id := sha_key [toString (listMin (clusterTimestamps trades)),
        toString (clusterWallets trades).length, clusterToken trades,
        clusterDirection trades]
      wallets := clusterWallets trades
      trades := trades
      token := clusterToken trades
      direction := clusterDirection trades
      score := calculate_suspicion_score (clusterData ages trades)
      total_notional := clusterTotalNotional trades
      time_window := clusterTimeSpan trades
      first_trade_ms := listMin (clusterTimestamps trades)
      last_trade_ms := listMax (clusterTimestamps trades)
      trade_count := trades.length
      alignment := clusterAlignment trades
      size_clustering_cv := detect_size_clustering trades
      cross_token_count := detect_cross_token_coordination trades }

/-- `mark_seen` (lines 235-239): `INSERT OR IGNORE` of a digest into the
`seen` table, modelled as a set of digests (the `ts` column is never read). -/
def mark_seen (s : Finset String) (digest : String) : Finset String :=
  insert digest s

/-- `is_seen` (lines 241-244): membership in the `seen` table. -/
def is_seen (s : Finset String) (digest : String) : Bool :=
  decide (digest ∈ s)

/-- Operations the `seen` store can undergo after a digest is recorded:
further `mark_seen` calls, or a process restart.  The table lives in SQLite
on disk, so a restart re-opens the same persisted state. -/
inductive SeenOp where
  | mark (digest : String)
  | restart
deriving DecidableEq, Repr

/-- Apply a sequence of store operations. -/
def applySeenOps (s : Finset String) (ops : List SeenOp) : Finset String :=
  ops.foldl (fun s op => match op with
    | SeenOp.mark d => mark_seen s d
    | SeenOp.restart => s) s

/-- `get_cursor` (lines 246-256) over the `cursors` table as an association
list.  A row whose value is `0` is falsy in Python (`if row and row[0]`),
so it falls back exactly like a missing row; the fallback is persisted
immediately. -/
def get_cursor (cursors : List (String × ℤ)) (source : String) (fallback_ms : ℤ) :
    ℤ × List (String × ℤ) :=
  match cursors.lookup source with
  | some v => if v ≠ 0 then (v, cursors)
      else (fallback_ms, cursors.filter (fun p => p.1 ≠ source) ++ [(source, fallback_ms)])
  | none => (fallback_ms, cursors ++ [(source, fallback_ms)])

/-- `set_cursor` (lines 258-262): `INSERT OR REPLACE` of the cursor row. -/
def set_cursor (cursors : List (String × ℤ)) (source : String) (ms : ℤ) :
    List (String × ℤ) :=
  cursors.filter (fun p => p.1 ≠ source) ++ [(source, ms)]

/-- `get_wallet_age_days` (lines 493-540).  The effectful body (cache read
plus API fetch) is abstracted by its outcome `lookup`: either the first
trade timestamp it computed, or the exception it raised.  Any exception
yields the neutral default of 30 days; otherwise
`int(max(0, age_ms / (1000*60*60*24)))`. -/
def get_wallet_age_days (lookup : Except String ℤ) (nowMs : ℤ) : ℤ :=
  match lookup with
  | Except.error _ => 30
  | Except.ok first_trade_ms =>
      pyInt (max 0 (((nowMs - first_trade_ms : ℤ) : ℚ) / (1000 * 60 * 60 * 24)))

/-- In-process watchlist state: the module-level `VIP_ADDRESSES` and
`WATCH_ADDRESSES` lists, plus the persisted `vip_wallets` table, whose
PRIMARY KEY makes it a duplicate-free address list. -/
structure WatchState where
  vip : List String
  watch : List String
  dbVip : List String
deriving DecidableEq, Repr

/-- `INSERT OR IGNORE INTO vip_wallets` (lines 773-776). -/
def dbVipInsert (db : List String) (w : String) : List String :=
  if w ∈ db then db else db ++ [w]

/-- `add_wallets_to_vip` (lines 762-786): lower-case each wallet, persist
and collect the ones not already elevated, then extend the in-memory VIP
and watch lists (the VIP list is only read, never extended, inside the
loop, and the watch-list filter is evaluated against the old list). -/
def add_wallets_to_vip (st : WatchState) (wallets : List String) : WatchState :=
  let new_wallets := (wallets.map pyLower).filter (fun w => w ∉ st.vip)
  { vip := st.vip ++ new_wallets
    watch := st.watch ++ new_wallets.filter (fun w => w ∉ st.watch)
    dbVip := new_wallets.foldl dbVipInsert st.dbVip }

/-- One row of the `load_vip_wallets_from_db` loop (lines 1483-1489). -/
def loadVipStep (st : WatchState) (a : String) : WatchState :=
  if a ∈ st.vip then st
  else { st with vip := st.vip ++ [a],
                 watch := if a ∈ st.watch then st.watch else st.watch ++ [a] }

/-- `load_vip_wallets_from_db` (lines 1478-1493): fold the persisted
`vip_wallets` rows into the in-memory lists. -/
def load_vip_wallets_from_db (st : WatchState) : WatchState :=
  st.dbVip.foldl loadVipStep st

/-- A whole-run sequence of watchlist events: automatic promotions and
startup reloads from the database. -/
inductive WatchOp where
  | promote (wallets : List String)
  | load
deriving DecidableEq, Repr

/-- Apply a sequence of watchlist events. -/
def applyWatchOps (st : WatchState) (ops : List WatchOp) : WatchState :=
  ops.foldl (fun st op => match op with
    | WatchOp.promote ws => add_wallets_to_vip st ws
    | WatchOp.load => load_vip_wallets_from_db st) st

/-- Elevation status (`is_vip`, lines 178-180): membership of the
lower-cased address in the VIP list. -/
def is_vip (vip : List String) (address : String) : Bool :=
  decide (pyLower address ∈ vip)

/-- A normalized transfer as returned by `fetch_transfers` (lines 380-386):
kind is `delta_type.capitalize()` (`"Deposit"`, `"Withdraw"`,
`"Internaltransfer"`). -/
structure Transfer where
  typ : String
  token : String
  usdamount : ℚ
  hash : String
  time : ℤ
deriving DecidableEq, Repr

/-- A normalized fill as returned by `fetch_perps` (lines 311-322). -/
structure Fill where
  typ : String
  token : String
  amount : ℚ
  px : ℚ
  usdamount : ℚ
  notional : ℚ
  hash : String
  time : ℤ
  side : String
  oid : String
deriving DecidableEq, Repr

/-- A classified finding (the dicts appended by `classify_events`).  The
source uses heterogeneous dicts; the model is one structure whose unused
fields hold `0`/`""` (in particular the `px: ""` of the deposit branch
becomes `0`). -/
structure Finding where
  kind : String
  activity_type : String
  subtype : String
  token : String
  amount : ℚ
  px : ℚ
  usdamount : ℚ
  notional : ℚ
  time_ms : ℤ
  hash : String
deriving DecidableEq, Repr

/-- One wallet's entry in the module-level `vip_activity` dict
(lines 67-101); `positions` maps token to net position. -/
structure VipActivity where
  trades : ℕ
  deposits : ℕ
  withdrawals : ℕ
  total_notional : ℚ
  last_activity : Option ℤ
  positions : List (String × ℚ)
deriving DecidableEq, Repr

/-- Fresh entry created on first activity (lines 72-80). -/
def emptyVipActivity : VipActivity :=
  { trades := 0, deposits := 0, withdrawals := 0, total_notional := 0,
    last_activity := none, positions := [] }

/-- Store a value under a key in an association list (replace in place, or
append when absent), modelling a Python dict update. -/
def alStore (m : List (String × VipActivity)) (k : String) (v : VipActivity) :
    List (String × VipActivity) :=
  match m.lookup k with
  | none => m ++ [(k, v)]
  | some _ => m.map (fun p => if p.1 = k then (p.1, v) else p)

/-- `positions[token] += size` / `-= size` bookkeeping (lines 86-94). -/
def updatePositions (positions : List (String × ℚ)) (token : String) (side : String)
    (size : ℚ) : List (String × ℚ) :=
  let cur := (positions.lookup token).getD 0
  let newVal :=
    if pyLower side ∈ ["b", "buy", "bid"] then cur + size
    else if pyLower side ∈ ["a", "sell", "ask", "short"] then cur - size
    else cur
  match positions.lookup token with
  | none => positions ++ [(token, newVal)]
  | some _ => positions.map (fun p => if p.1 = token then (p.1, newVal) else p)

/-- `track_vip_activity` (lines 70-101): mutate the per-wallet activity
entry for `address.lower()`.  `now_ms` stands for the `now_utc()` read. -/
def track_vip_activity (m : List (String × VipActivity)) (now_ms : ℤ)
    (address event_type : String) (notional : ℚ) (side : String) (size : ℚ)
    (token : String) : List (String × VipActivity) :=
  let key := pyLower address
  let a := (m.lookup key).getD emptyVipActivity
  let a :=
    if event_type ∈ ["TRADE", "trade"] then
      { a with trades := a.trades + 1,
               positions := if token ≠ "" ∧ size ≠ 0 then
                   updatePositions a.positions token side size
                 else a.positions }
    else if event_type ∈ ["DEPOSIT", "Deposit"] then
      { a with deposits := a.deposits + 1 }
    else if event_type ∈ ["WITHDRAW", "Withdraw"] then
      { a with withdrawals := a.withdrawals + 1 }
    else a
  let a := { a with total_notional := a.total_notional + notional,
                    last_activity := some now_ms }
  alStore m key a

/-- Substring test, modelling Python's `"open" in typ`. -/
def strContains (s sub : String) : Bool :=
  decide (sub.toList <:+: s.toList)

/-- The transfer branch of `classify_events` (lines 1140-1168): one
transfer record to zero or one finding, threading the activity tracker. -/
def classifyTransfer (vipFlag : Bool) (now_ms : ℤ) (address : String)
    (m : List (String × VipActivity)) (r : Transfer) :
    List (String × VipActivity) × List Finding :=
  let tok := pyUpper r.token
  let typ := r.typ
  let usd := r.usdamount
  let ts_ms := r.time
  if vipFlag ∧ typ ∈ ["Deposit", "Withdraw"] then
    (track_vip_activity m now_ms address typ usd "" 0 "",
      [{ kind := "VIP_ACTIVITY", activity_type := pyUpper typ, subtype := typ,
         token := tok, amount := usd, px := 0, usdamount := 0, notional := usd,
         time_ms := ts_ms, hash := r.hash }])
  else if ¬vipFlag ∧ tok ∈ ["USDC", "USDT"] ∧ typ = "Deposit" ∧
      usd ≥ USD_DEPOSIT_THRESHOLD then
    (m, [{ kind := "LARGE_DEPOSIT", activity_type := "", subtype := "",
           token := tok, amount := 0, px := 0, usdamount := usd, notional := 0,
           time_ms := ts_ms, hash := r.hash }])
  else (m, [])

/-- The fill branch of `classify_events` (lines 1170-1206). -/
def classifyFill (vipFlag : Bool) (now_ms : ℤ) (address : String)
    (m : List (String × VipActivity)) (r : Fill) :
    List (String × VipActivity) × List Finding :=
  let typ := pyLower r.typ
  let side := pyLower r.side
  let ts_ms := r.time
  let token := r.token
  let notional := r.notional
  let amount := r.amount
  let px := r.px
  if vipFlag then
    (track_vip_activity m now_ms address "TRADE" notional side amount token,
      [{ kind := "VIP_ACTIVITY", activity_type := "TRADE",
         subtype := pyUpper side ++ " " ++ pyUpper (typ.replace "_" " "),
         token := token, amount := amount, px := px, usdamount := 0,
         notional := notional, time_ms := ts_ms, hash := r.hash }])
  else
    let is_open_short := (strContains typ "open" ∧ strContains typ "short") ∨
      strContains typ "short_open" ∨ side ∈ ["sell", "a", "ask"]
    if is_open_short ∧ notional ≥ USD_SHORT_THRESHOLD then
      (m, [{ kind := "LARGE_OPEN_SHORT", activity_type := "", subtype := "",
             token := token, amount := amount, px := px, usdamount := 0,
             notional := notional, time_ms := ts_ms, hash := r.hash }])
    else (m, [])

/-- `classify_events` (lines 1130-1214): transfers first, then fills, each
appending findings in order; elevated addresses additionally update the
process-wide activity tracker, whose threaded state is returned alongside
the findings. -/
def classify_events (vip : List String) (m : List (String × VipActivity))
    (now_ms : ℤ) (address : String) (perps : List Fill)
    (transfers : List Transfer) : List Finding × List (String × VipActivity) :=
  let vipFlag := is_vip vip address
  let step1 := transfers.foldl
    (fun acc r =>
      (acc.1 ++ (classifyTransfer vipFlag now_ms address acc.2 r).2,
        (classifyTransfer vipFlag now_ms address acc.2 r).1))
    (([] : List Finding), m)
  perps.foldl
    (fun acc r =>
      (acc.1 ++ (classifyFill vipFlag now_ms address acc.2 r).2,
        (classifyFill vipFlag now_ms address acc.2 r).1))
    step1

/-- `INSERT OR REPLACE INTO market_trades` keyed by `trade_id`
(lines 1266-1280). -/
def upsertTrade (db : List Trade) (t : Trade) : List Trade :=
  if db.any (fun u => u.trade_id = t.trade_id) then
    db.map (fun u => if u.trade_id = t.trade_id then t else u)
  else db ++ [t]

/-- `store_market_trade` (lines 1251-1280) on a fetched fill tagged with its
owning wallet (`scan_once` sets `trade['wallet'] = addr` before storing):
derive the trade id from the fill hash, falling back to a content hash, and
upsert the row (`wallet_age_days` defaults to 30). -/
def store_market_trade (db : List Trade) (wallet : String) (p : Fill) : List Trade :=
  let trade_id := if p.hash ≠ "" then p.hash else sha_key [wallet, p.token, toString p.time]
  upsertTrade db
    { trade_id := trade_id, wallet := wallet, token := p.token, side := p.side,
      notional := p.notional, timestamp_ms := p.time, wallet_age_days := 30 }

/-- Result of one `scan_for_clusters` pass: the clusters newly detected and
saved, the VIP-promotion calls issued (each with its wallet list), and the
updated seen store and watchlist state. -/
structure ClusterScanResult where
  clusters : List Cluster
  promotions : List (List String)
  seen : Finset String
  watch : WatchState

/-- `scan_for_clusters` (lines 1282-1332): group the recent large trades
(the result of the `get_recent_market_trades` query, passed in as
`recent_trades`) by token, run the detector on each group of ≥3 trades, and
for each unseen detected cluster mark it seen, save it and promote its
wallets.  Tokens are visited in first-occurrence order (Python iterates the
set in unspecified order). -/
noncomputable def scan_for_clusters (ages : String → ℤ) (recent_trades : List Trade)
    (seen : Finset String) (wst : WatchState) : ClusterScanResult :=
  if recent_trades.length < 3 then
    { clusters := [], promotions := [], seen := seen, watch := wst }
  else
    let tokens := ((recent_trades.filter (fun t => t.token ≠ "")).map
      (fun t => t.token)).dedup
    tokens.foldl
      (fun acc token =>
        let token_trades := recent_trades.filter (fun t => t.token = token)
        if token_trades.length < 3 then acc
        else
          match detect_trading_cluster ages token_trades CLUSTER_TIME_WINDOW_MINUTES with
          | none => acc
          | some cluster =>
              if is_seen acc.seen cluster.cluster_id then acc
              else
                { clusters := acc.clusters ++ [cluster]
                  promotions := acc.promotions ++ [cluster.wallets]
                  seen := mark_seen acc.seen cluster.cluster_id
                  watch := add_wallets_to_vip acc.watch cluster.wallets })
      { clusters := [], promotions := [], seen := seen, watch := wst }

/-- The persistent and process state threaded through one `scan_once` pass. -/
structure ScanState where
  cursors : List (String × ℤ)
  seen : Finset String
  marketTrades : List Trade
  vipActivity : List (String × VipActivity)
deriving DecidableEq

/-- The per-address external effects of one cycle: the outcome of the
paired `fetch_perps`/`fetch_transfers` calls (lines 1354-1357) and the
successive `now_utc()` clock readings — at the lookback-fallback
computation (lines 1347-1349), during classification, and at the final
`set_cursor` (line 1416). -/
structure AddrCycleInput where
  fetched : Except String (List Fill × List Transfer)
  nowFallbackMs : ℤ
  nowClassifyMs : ℤ
  nowCursorMs : ℤ

/-- The aggregate finding that replaces a batch of more than 10 findings
(lines 1392-1406). -/
def summaryFinding (vipFlag : Bool) (deduped : List Finding) : Finding :=
  { kind := if vipFlag then "VIP_ACTIVITY" else "ACTIVITY_SUMMARY",
    activity_type := "MULTIPLE",
    subtype := toString deduped.length ++ " events detected",
    token := "Various", amount := 0, px := 0, usdamount := 0,
    notional := (deduped.map (fun d => d.notional)).sum,
    time_ms := listMax (deduped.map (fun d => d.time_ms)),
    hash := toString deduped.length ++ " trades" }

/-- One address's iteration of `scan_once` (lines 1342-1416): resolve the
cursor (persisting the fallback on first use), and on a successful fetch
archive the large fills, classify, dedupe against the seen store, emit the
(possibly summarized) notifications, and advance the cursor to the current
wall clock.  A fetch error leaves everything but the persisted fallback
untouched (`continue`). -/
def scan_address (wst : WatchState) (st : ScanState) (addr : String)
    (inp : AddrCycleInput) : ScanState × List Finding :=
  let source_key := "hyperliquid:addr:" ++ addr
  let since_default :=
    if is_vip wst.vip addr then inp.nowFallbackMs - VIP_LOOKBACK_HOURS * 60 * 60 * 1000
    else inp.nowFallbackMs - LOOKBACK_MINUTES * 60 * 1000
  let cursors1 := (get_cursor st.cursors source_key since_default).2
  match inp.fetched with
  | Except.error _ => ({ st with cursors := cursors1 }, [])
  | Except.ok (perps, transfers) =>
      let mt := (perps.filter (fun p => p.notional ≥ MARKET_MIN_TRADE_SIZE)).foldl
        (fun db p => store_market_trade db addr p) st.marketTrades
      let classified := classify_events wst.vip st.vipActivity inp.nowClassifyMs
        addr perps transfers
      let dedup := classified.1.foldl
        (fun (acc : Finset String × List Finding) f =>
          let digest := sha_key [addr, f.kind, f.hash, toString f.time_ms]
          if is_seen acc.1 digest then acc
          else (mark_seen acc.1 digest, acc.2 ++ [f]))
        (st.seen, ([] : List Finding))
      let sent :=
        if dedup.2 = [] then []
        else if 10 < dedup.2.length then [summaryFinding (is_vip wst.vip addr) dedup.2]
        else dedup.2
      ({ cursors := set_cursor cursors1 source_key inp.nowCursorMs,
         seen := dedup.1, marketTrades := mt, vipActivity := classified.2 }, sent)

/-- `scan_once` (lines 1337-1419): iterate the watched addresses in order,
threading the scan state; `inputs` supplies each address's fetch outcome
and clock readings. -/
def scan_once (wst : WatchState) (st : ScanState)
    (inputs : String → AddrCycleInput) : ScanState :=
  wst.watch.foldl (fun st addr => (scan_address wst st addr (inputs addr)).1) st

/-! ## Theorems -/

/-- A digest present in the seen store stays present under any sequence of
further `mark_seen` calls and restarts. -/
theorem mem_applySeenOps {d : String} :
    ∀ (ops : List SeenOp) (s : Finset String), d ∈ s → d ∈ applySeenOps s ops
  | [], _, h => h
  | SeenOp.mark _ :: rest, _, h =>
      mem_applySeenOps rest _ (Finset.mem_insert_of_mem h)
  | SeenOp.restart :: rest, _, h => mem_applySeenOps rest _ h

/-- C7: deduplication is idempotent and has no false negatives: after one
`mark_seen(digest)`, every later `is_seen(digest)` is true, across any
interleaved `mark_seen` calls and simulated restarts of the store, and a
second `mark_seen` of the same digest leaves the seen-set unchanged. -/
theorem c7_dedup_idempotent :
    ∀ (s : Finset String) (digest : String) (ops : List SeenOp),
      is_seen (applySeenOps (mark_seen s digest) ops) digest = true ∧
      mark_seen (mark_seen s digest) digest = mark_seen s digest := by
  intro s digest ops
  refine ⟨?_, ?_⟩
  · have h : digest ∈ applySeenOps (mark_seen s digest) ops :=
      mem_applySeenOps ops _ (Finset.mem_insert_self _ _)
    simpa [is_seen] using h
  · simp [mark_seen, Finset.insert_idem]

/-- C9: any exception during the wallet-age lookup yields the neutral
default of 30 days rather than propagating, and cluster detection over any
trade set completes identically to a run with the constant fallback age. -/
theorem c9_wallet_age_fallback :
    (∀ (e : String) (nowMs : ℤ), get_wallet_age_days (Except.error e) nowMs = 30) ∧
    (∀ (lookup : String → Except String ℤ) (nowMs : ℤ) (trades : List Trade) (w : ℚ),
      (∀ a, ∃ e, lookup a = Except.error e) →
      detect_trading_cluster (fun a => get_wallet_age_days (lookup a) nowMs) trades w =
        detect_trading_cluster (fun _ => 30) trades w) := by
  refine ⟨fun e nowMs => rfl, fun lookup nowMs trades w h => ?_⟩
  have hfun : (fun a => get_wallet_age_days (lookup a) nowMs) = fun _ => (30 : ℤ) := by
    funext a
    obtain ⟨e, he⟩ := h a
    rw [he, show get_wallet_age_days (Except.error e) nowMs = 30 from rfl]
  rw [hfun]

/-- Witness for C9 at a lookup that always raises. -/
theorem c9_wallet_age_fallback_witness :
    (∀ a : String, ∃ e, (fun _ : String => Except.error (ε := String) (α := ℤ)
        "no such column: first_trade_ms") a = Except.error e) ∧
    detect_trading_cluster
        (fun a => get_wallet_age_days ((fun _ : String => Except.error (ε := String) (α := ℤ)
          "no such column: first_trade_ms") a) 1700000000000) [] 60 =
      detect_trading_cluster (fun _ => 30) [] 60 :=
  ⟨fun _ => ⟨_, rfl⟩,
    c9_wallet_age_fallback.2 _ 1700000000000 [] 60 (fun _ => ⟨_, rfl⟩)⟩

/-- Promotion only appends to the in-memory VIP list. -/
theorem vip_mono_promote {a : String} {st : WatchState} (ws : List String)
    (h : a ∈ st.vip) : a ∈ (add_wallets_to_vip st ws).vip :=
  List.mem_append_left _ h

/-- Promotion only appends to the in-memory watch list. -/
theorem watch_mono_promote {a : String} {st : WatchState} (ws : List String)
    (h : a ∈ st.watch) : a ∈ (add_wallets_to_vip st ws).watch :=
  List.mem_append_left _ h

/-- Each step of the startup reload only appends to both lists. -/
theorem mono_loadVipStep {a : String} {st : WatchState} (b : String) :
    (a ∈ st.vip → a ∈ (loadVipStep st b).vip) ∧
    (a ∈ st.watch → a ∈ (loadVipStep st b).watch) := by
  unfold loadVipStep
  split_ifs with h1 h2 <;>
    exact ⟨fun h => by simp [h], fun h => by simp [h]⟩

/-- The startup reload only appends to both lists. -/
theorem mono_load {a : String} :
    ∀ (l : List String) (st : WatchState),
      (a ∈ st.vip → a ∈ (l.foldl loadVipStep st).vip) ∧
      (a ∈ st.watch → a ∈ (l.foldl loadVipStep st).watch)
  | [], st => ⟨id, id⟩
  | b :: rest, st => by
      refine ⟨fun h => ?_, fun h => ?_⟩
      · exact (mono_load rest (loadVipStep st b)).1 ((mono_loadVipStep b).1 h)
      · exact (mono_load rest (loadVipStep st b)).2 ((mono_loadVipStep b).2 h)

/-- Membership in the VIP and watch lists survives any whole-run sequence
of promotions and reloads. -/
theorem mono_applyWatchOps {a : String} :
    ∀ (ops : List WatchOp) (st : WatchState),
      (a ∈ st.vip → a ∈ (applyWatchOps st ops).vip) ∧
      (a ∈ st.watch → a ∈ (applyWatchOps st ops).watch)
  | [], _ => ⟨id, id⟩
  | WatchOp.promote ws :: rest, st => by
      refine ⟨fun h => ?_, fun h => ?_⟩
      · exact (mono_applyWatchOps rest _).1 (vip_mono_promote ws h)
      · exact (mono_applyWatchOps rest _).2 (watch_mono_promote ws h)
  | WatchOp.load :: rest, st => by
      refine ⟨fun h => ?_, fun h => ?_⟩
      · exact (mono_applyWatchOps rest _).1 ((mono_load st.dbVip st).1 h)
      · exact (mono_applyWatchOps rest _).2 ((mono_load st.dbVip st).2 h)

/-- Promoting a wallet list whose lower-cased entries are all already
elevated is a no-op. -/
theorem add_wallets_eq_of_all_mem (st : WatchState) (ws : List String)
    (h : ∀ x ∈ ws.map pyLower, x ∈ st.vip) : add_wallets_to_vip st ws = st := by
  have hnil : (ws.map pyLower).filter (fun w => w ∉ st.vip) = [] := by
    rw [List.filter_eq_nil_iff]
    intro x hx
    simpa using h x hx
  unfold add_wallets_to_vip
  rw [hnil]
  simp

/-- C8: elevation is monotone (membership in Elevated and Watched survives
every later promotion or reload for the rest of the run), promoting the
same wallet list twice is a no-op the second time (so the elevated-entry
count is unchanged), and every promotion preserves Elevated ⊆ Watched
under lower-case normalization. -/
theorem c8_elevation_invariants :
    (∀ (st : WatchState) (ops : List WatchOp) (a : String),
      (a ∈ st.vip → a ∈ (applyWatchOps st ops).vip) ∧
      (a ∈ st.watch → a ∈ (applyWatchOps st ops).watch)) ∧
    (∀ (st : WatchState) (wallets : List String),
      add_wallets_to_vip (add_wallets_to_vip st wallets) wallets =
        add_wallets_to_vip st wallets) ∧
    (∀ (st : WatchState) (wallets : List String),
      (∀ b ∈ st.vip, pyLower b ∈ st.watch.map pyLower) →
      ∀ b ∈ (add_wallets_to_vip st wallets).vip,
        pyLower b ∈ (add_wallets_to_vip st wallets).watch.map pyLower) := by
  refine ⟨fun st ops a => mono_applyWatchOps ops st, fun st wallets => ?_, ?_⟩
  · refine add_wallets_eq_of_all_mem _ wallets (fun x hx => ?_)
    unfold add_wallets_to_vip
    by_cases hv : x ∈ st.vip
    · exact List.mem_append_left _ hv
    · exact List.mem_append_right _ (List.mem_filter.mpr ⟨hx, by simpa using hv⟩)
  · intro st wallets hsub b hb
    unfold add_wallets_to_vip at hb ⊢
    rcases List.mem_append.mp hb with hb | hb
    · rcases List.mem_map.mp (hsub b hb) with ⟨c, hc, hce⟩
      exact List.mem_map.mpr ⟨c, List.mem_append_left _ hc, hce⟩
    · by_cases hw : b ∈ st.watch
      · exact List.mem_map.mpr ⟨b, List.mem_append_left _ hw, rfl⟩
      · refine List.mem_map.mpr ⟨b, List.mem_append_right _ ?_, rfl⟩
        exact List.mem_filter.mpr ⟨hb, by simpa using hw⟩

/-- Witness for C8 at a concrete state and promotion. -/
theorem c8_elevation_invariants_witness :
    ("0xaa" ∈ (⟨["0xaa"], ["0xaa"], ["0xaa"]⟩ : WatchState).vip ∧
      "0xaa" ∈ (applyWatchOps ⟨["0xaa"], ["0xaa"], ["0xaa"]⟩
        [WatchOp.promote ["0xBB"], WatchOp.load]).vip) ∧
    (add_wallets_to_vip (add_wallets_to_vip ⟨["0xaa"], ["0xaa"], ["0xaa"]⟩ ["0xBB"])
        ["0xBB"] =
      add_wallets_to_vip ⟨["0xaa"], ["0xaa"], ["0xaa"]⟩ ["0xBB"]) ∧
    ((∀ b ∈ (⟨["0xaa"], ["0xaa"], ["0xaa"]⟩ : WatchState).vip,
        pyLower b ∈ (⟨["0xaa"], ["0xaa"], ["0xaa"]⟩ : WatchState).watch.map pyLower) ∧
      ∀ b ∈ (add_wallets_to_vip ⟨["0xaa"], ["0xaa"], ["0xaa"]⟩ ["0xBB"]).vip,
        pyLower b ∈ (add_wallets_to_vip ⟨["0xaa"], ["0xaa"], ["0xaa"]⟩
          ["0xBB"]).watch.map pyLower) :=
  ⟨⟨by decide,
      (c8_elevation_invariants.1 ⟨["0xaa"], ["0xaa"], ["0xaa"]⟩
        [WatchOp.promote ["0xBB"], WatchOp.load] "0xaa").1 (by decide)⟩,
    c8_elevation_invariants.2.1 ⟨["0xaa"], ["0xaa"], ["0xaa"]⟩ ["0xBB"],
    ⟨by decide,
      c8_elevation_invariants.2.2 ⟨["0xaa"], ["0xaa"], ["0xaa"]⟩ ["0xBB"] (by decide)⟩⟩

/-- The size-homogeneity signal never increases as the coefficient of
variation grows. -/
theorem sizeCvScore_antitone {cv1 cv2 : ℝ} (h : cv1 ≤ cv2) :
    sizeCvScore cv2 ≤ sizeCvScore cv1 := by
  unfold sizeCvScore
  split_ifs <;> first | (exfalso; linarith) | norm_num

/-- C5: the suspicion score is monotone in timing tightness and size
homogeneity: with all other signals fixed, moving the time span from 10
minutes to 0.5 minutes never decreases the score, and decreasing the
trade-size coefficient of variation never decreases the score. -/
theorem c5_score_monotonicity :
    (∀ d : ClusterData,
      calculate_suspicion_score { d with time_span := 10 } ≤
        calculate_suspicion_score { d with time_span := 0.5 }) ∧
    (∀ (d : ClusterData) (cv1 cv2 : ℝ), cv1 ≤ cv2 →
      calculate_suspicion_score { d with size_clustering_cv := cv2 } ≤
        calculate_suspicion_score { d with size_clustering_cv := cv1 }) := by
  constructor
  · intro d
    unfold calculate_suspicion_score
    refine min_le_min (le_refl 100) ?_
    have h1 : timingScore 10 = 15 := by norm_num [timingScore]
    have h2 : timingScore 0.5 = 30 := by norm_num [timingScore]
    have h3 : timingPrecisionBonus 10 = 0 := by norm_num [timingPrecisionBonus]
    have h4 : timingPrecisionBonus 0.5 = 10 := by norm_num [timingPrecisionBonus]
    simp only [h1, h2, h3, h4]
    linarith
  · intro d cv1 cv2 h
    unfold calculate_suspicion_score
    refine min_le_min (le_refl 100) ?_
    have := sizeCvScore_antitone h
    simp only
    linarith

/-- Witness for C5 at a concrete bundle and a concrete pair of
coefficients of variation. -/
theorem c5_score_monotonicity_witness :
    (0 : ℝ) ≤ 1 ∧
      calculate_suspicion_score
          { wallet_count := 3, total_notional := 60000000, time_span := 0.5,
            alignment := 1, avg_wallet_age := 30, size_clustering_cv := 1,
            cross_token_count := 0 } ≤
        calculate_suspicion_score
          { wallet_count := 3, total_notional := 60000000, time_span := 0.5,
            alignment := 1, avg_wallet_age := 30, size_clustering_cv := 0,
            cross_token_count := 0 } :=
  ⟨zero_le_one,
    c5_score_monotonicity.2
      { wallet_count := 3, total_notional := 60000000, time_span := 0.5,
        alignment := 1, avg_wallet_age := 30, size_clustering_cv := 0,
        cross_token_count := 0 } 0 1 zero_le_one⟩

/-- The timing signal stays within [0, 30]. -/
theorem timingScore_bounds (ts : ℚ) : 0 ≤ timingScore ts ∧ timingScore ts ≤ 30 := by
  unfold timingScore
  split_ifs <;> norm_num

/-- The notional signal is at most 20, and nonnegative for nonnegative
notionals. -/
theorem notionalScore_bounds (n : ℚ) :
    notionalScore n ≤ 20 ∧ (0 ≤ n → 0 ≤ notionalScore n) := by
  refine ⟨min_le_left _ _, fun h => ?_⟩
  have hq : (0 : ℚ) ≤ n / 100000000 * 8 := by positivity
  have : 0 ≤ pyInt (n / 100000000 * 8) := by
    rw [pyInt, if_pos hq]
    exact Int.le_floor.mpr (by exact_mod_cast hq)
  exact le_min (by norm_num) this

/-- The wallet-count signal stays within [0, 15]. -/
theorem walletCountScore_bounds (c : ℕ) :
    0 ≤ walletCountScore c ∧ walletCountScore c ≤ 15 :=
  ⟨le_min (by norm_num) (by positivity), min_le_left _ _⟩

/-- The wallet-age signal stays within [0, 10]. -/
theorem ageScore_bounds (a : ℚ) : 0 ≤ ageScore a ∧ ageScore a ≤ 10 := by
  unfold ageScore
  split_ifs <;> norm_num

/-- The alignment signal stays within [0, 10]. -/
theorem alignmentScore_bounds (al : ℚ) :
    0 ≤ alignmentScore al ∧ alignmentScore al ≤ 10 := by
  unfold alignmentScore
  split_ifs <;> norm_num

/-- The size-homogeneity signal stays within [0, 15]. -/
theorem sizeCvScore_bounds (cv : ℝ) : 0 ≤ sizeCvScore cv ∧ sizeCvScore cv ≤ 15 := by
  unfold sizeCvScore
  split_ifs <;> norm_num

/-- The cross-token signal stays within [0, 10]. -/
theorem crossTokenScore_bounds (k : ℕ) :
    0 ≤ crossTokenScore k ∧ crossTokenScore k ≤ 10 := by
  unfold crossTokenScore
  split_ifs <;> norm_num

/-- The timing-precision bonus stays within [0, 10]. -/
theorem timingPrecisionBonus_bounds (ts : ℚ) :
    0 ≤ timingPrecisionBonus ts ∧ timingPrecisionBonus ts ≤ 10 := by
  unfold timingPrecisionBonus
  split_ifs <;> norm_num

/-- Counterexample to C6 as stated: the score function applied to a bundle
with a (large) negative total notional returns −80, which is outside
[0, 100] — the notional signal `min(20, int(total/1e8 * 8))` is not
clamped from below. -/
theorem c6_score_range_counterexample :
    calculate_suspicion_score
        { wallet_count := 0, total_notional := -1000000000, time_span := 60,
          alignment := 0.5, avg_wallet_age := 30, size_clustering_cv := 1,
          cross_token_count := 0 } = -80 ∧
      calculate_suspicion_score
        { wallet_count := 0, total_notional := -1000000000, time_span := 60,
          alignment := 0.5, avg_wallet_age := 30, size_clustering_cv := 1,
          cross_token_count := 0 } < 0 := by
  have e1 : timingScore 60 = 0 := by norm_num [timingScore]
  have e2 : notionalScore (-1000000000) = -80 := by
    have hq : ((-1000000000 : ℚ) / 100000000 * 8) = -80 := by norm_num
    have hp : pyInt (-80) = -80 := by
      rw [pyInt, if_neg (by norm_num)]
      norm_num
    rw [notionalScore, hq, hp]
    omega
  have e3 : walletCountScore 0 = 0 := by rw [walletCountScore]; omega
  have e4 : ageScore 30 = 0 := by norm_num [ageScore]
  have e5 : alignmentScore 0.5 = 0 := by norm_num [alignmentScore]
  have e6 : sizeCvScore 1 = 0 := by norm_num [sizeCvScore]
  have e7 : crossTokenScore 0 = 0 := by norm_num [crossTokenScore]
  have e8 : timingPrecisionBonus 60 = 0 := by norm_num [timingPrecisionBonus]
  have h : calculate_suspicion_score
      { wallet_count := 0, total_notional := -1000000000, time_span := 60,
        alignment := 0.5, avg_wallet_age := 30, size_clustering_cv := 1,
        cross_token_count := 0 } =
      min 100 (timingScore 60 + notionalScore (-1000000000) + walletCountScore 0 +
        ageScore 30 + alignmentScore 0.5 + sizeCvScore 1 + crossTokenScore 0 +
        timingPrecisionBonus 60) := rfl
  rw [h, e1, e2, e3, e4, e5, e6, e7, e8]
  omega

/-- C6 (amended): for every signal bundle whose total notional is
nonnegative — as every bundle built by the detector is, notionals being
|size|·price — the score is an integer in [0, 100]; and each individual
signal is capped strictly below the default qualification threshold 70
(timing with its precision bonus at 40, notional at 20, wallet count at
15, wallet age at 10, alignment at 10, size homogeneity at 15,
cross-instrument recurrence at 10), so no single signal alone qualifies a
cluster. -/
theorem c6_score_range_and_caps :
    (∀ d : ClusterData, 0 ≤ d.total_notional →
      0 ≤ calculate_suspicion_score d ∧ calculate_suspicion_score d ≤ 100) ∧
    (∀ ts : ℚ, timingScore ts + timingPrecisionBonus ts < 70) ∧
    (∀ n : ℚ, notionalScore n < 70) ∧
    (∀ c : ℕ, walletCountScore c < 70) ∧
    (∀ a : ℚ, ageScore a < 70) ∧
    (∀ al : ℚ, alignmentScore al < 70) ∧
    (∀ cv : ℝ, sizeCvScore cv < 70) ∧
    (∀ k : ℕ, crossTokenScore k < 70) := by
  refine ⟨fun d hn => ?_, fun ts => ?_, fun n => ?_, fun c => ?_, fun a => ?_,
    fun al => ?_, fun cv => ?_, fun k => ?_⟩
  · obtain ⟨t1, t2⟩ := timingScore_bounds d.time_span
    obtain ⟨n1, n2⟩ := notionalScore_bounds d.total_notional
    obtain ⟨w1, w2⟩ := walletCountScore_bounds d.wallet_count
    obtain ⟨a1, a2⟩ := ageScore_bounds d.avg_wallet_age
    obtain ⟨l1, l2⟩ := alignmentScore_bounds d.alignment
    obtain ⟨s1, s2⟩ := sizeCvScore_bounds d.size_clustering_cv
    obtain ⟨c1, c2⟩ := crossTokenScore_bounds d.cross_token_count
    obtain ⟨b1, b2⟩ := timingPrecisionBonus_bounds d.time_span
    have hn0 := n2 hn
    unfold calculate_suspicion_score
    exact ⟨le_min (by norm_num) (by linarith), min_le_left _ _⟩
  · obtain ⟨_, t2⟩ := timingScore_bounds ts
    obtain ⟨_, b2⟩ := timingPrecisionBonus_bounds ts
    linarith
  · linarith [(notionalScore_bounds n).1]
  · linarith [(walletCountScore_bounds c).2]
  · linarith [(ageScore_bounds a).2]
  · linarith [(alignmentScore_bounds al).2]
  · linarith [(sizeCvScore_bounds cv).2]
  · linarith [(crossTokenScore_bounds k).2]

/-- Witness for C6 (amended) at a concrete bundle. -/
theorem c6_score_range_and_caps_witness :
    (0 : ℚ) ≤
        ({ wallet_count := 3, total_notional := 60000000, time_span := 0.75,
           alignment := 1, avg_wallet_age := 30, size_clustering_cv := 0,
           cross_token_count := 0 } : ClusterData).total_notional ∧
      0 ≤ calculate_suspicion_score
          { wallet_count := 3, total_notional := 60000000, time_span := 0.75,
            alignment := 1, avg_wallet_age := 30, size_clustering_cv := 0,
            cross_token_count := 0 } ∧
        calculate_suspicion_score
            { wallet_count := 3, total_notional := 60000000, time_span := 0.75,
              alignment := 1, avg_wallet_age := 30, size_clustering_cv := 0,
              cross_token_count := 0 } ≤ 100 :=
  ⟨by norm_num,
    c6_score_range_and_caps.1
      { wallet_count := 3, total_notional := 60000000, time_span := 0.75,
        alignment := 1, avg_wallet_age := 30, size_clustering_cv := 0,
        cross_token_count := 0 } (by norm_num)⟩

/-- Every element of `positiveNotionals` is positive. -/
theorem positiveNotionals_pos {trades : List Trade} {x : ℚ}
    (h : x ∈ positiveNotionals trades) : 0 < x := by
  obtain ⟨t, ht, rfl⟩ := List.mem_map.mp h
  simpa using (List.mem_filter.mp ht).2

/-- The mean of the positive notionals is positive when at least one
exists. -/
theorem sampleMean_pos {trades : List Trade}
    (h : 1 ≤ (positiveNotionals trades).length) :
    0 < sampleMean (positiveNotionals trades) := by
  have hne : positiveNotionals trades ≠ [] := by
    intro he
    rw [he] at h
    simp at h
  have hsum : 0 < (positiveNotionals trades).sum :=
    List.sum_pos _ (fun x hx => positiveNotionals_pos hx) hne
  have hlen : (0 : ℚ) < ((positiveNotionals trades).length : ℚ) := by
    exact_mod_cast List.length_pos.mpr hne
  exact div_pos hsum hlen

/-- C10: the size-homogeneity computation is total and guarded: it always
returns a nonnegative value; with fewer than two positive notionals it
returns exactly 1 (never reaching the standard deviation or the division
by the mean); otherwise the mean of the positive notionals is positive and
the result is their sample standard deviation divided by that mean. -/
theorem c10_size_clustering_total :
    ∀ trades : List Trade,
      0 ≤ detect_size_clustering trades ∧
      ((positiveNotionals trades).length < 2 → detect_size_clustering trades = 1) ∧
      (2 ≤ (positiveNotionals trades).length →
        0 < sampleMean (positiveNotionals trades) ∧
        detect_size_clustering trades =
          Real.sqrt ((sampleVariance (positiveNotionals trades) : ℚ) : ℝ) /
            ((sampleMean (positiveNotionals trades) : ℚ) : ℝ)) := by
  intro trades
  by_cases hlen : (positiveNotionals trades).length < 2
  · have hone : detect_size_clustering trades = 1 := by
      simp only [detect_size_clustering]
      rw [if_pos hlen]
    exact ⟨by rw [hone]; norm_num, fun _ => hone, fun h2 => absurd h2 (by omega)⟩
  · have h2 : 2 ≤ (positiveNotionals trades).length := by omega
    have hmean := @sampleMean_pos trades (by omega)
    have hm : ¬sampleMean (positiveNotionals trades) = 0 := ne_of_gt hmean
    have hgt : 1 < (positiveNotionals trades).length := by omega
    have heq : detect_size_clustering trades =
        Real.sqrt ((sampleVariance (positiveNotionals trades) : ℚ) : ℝ) /
          ((sampleMean (positiveNotionals trades) : ℚ) : ℝ) := by
      simp only [detect_size_clustering]
      rw [if_neg hlen, if_neg hm, if_pos hgt]
    have hcast : (0 : ℝ) < ((sampleMean (positiveNotionals trades) : ℚ) : ℝ) := by
      exact_mod_cast hmean
    refine ⟨?_, fun hcon => absurd hcon hlen, fun _ => ⟨hmean, heq⟩⟩
    rw [heq]
    exact div_nonneg (Real.sqrt_nonneg _) hcast.le

/-- Witness for C10 at an empty trade list and at a two-trade list. -/
theorem c10_size_clustering_total_witness :
    ((positiveNotionals []).length < 2 ∧ detect_size_clustering [] = 1) ∧
    (2 ≤ (positiveNotionals
        [{ trade_id := "i1", wallet := "a", token := "BTC", side := "sell",
           notional := 10, timestamp_ms := 0, wallet_age_days := 30 },
         { trade_id := "i2", wallet := "b", token := "BTC", side := "sell",
           notional := 20, timestamp_ms := 0, wallet_age_days := 30 }]).length ∧
      0 < sampleMean (positiveNotionals
        [{ trade_id := "i1", wallet := "a", token := "BTC", side := "sell",
           notional := 10, timestamp_ms := 0, wallet_age_days := 30 },
         { trade_id := "i2", wallet := "b", token := "BTC", side := "sell",
           notional := 20, timestamp_ms := 0, wallet_age_days := 30 }])) :=
  ⟨⟨by norm_num [positiveNotionals],
      (c10_size_clustering_total []).2.1 (by norm_num [positiveNotionals])⟩,
    by norm_num [positiveNotionals],
    ((c10_size_clustering_total
      [{ trade_id := "i1", wallet := "a", token := "BTC", side := "sell",
         notional := 10, timestamp_ms := 0, wallet_age_days := 30 },
       { trade_id := "i2", wallet := "b", token := "BTC", side := "sell",
         notional := 20, timestamp_ms := 0, wallet_age_days := 30 }]).2.2
      (by norm_num [positiveNotionals])).1⟩

/-- For a non-elevated address the transfer branch never touches the
activity tracker. -/
theorem classifyTransfer_nonvip (now_ms : ℤ) (address : String)
    (m : List (String × VipActivity)) (r : Transfer) :
    (classifyTransfer false now_ms address m r).1 = m := by
  simp only [classifyTransfer]
  rw [if_neg (by simp)]
  split_ifs <;> rfl

/-- For a non-elevated address the fill branch never touches the activity
tracker. -/
theorem classifyFill_nonvip (now_ms : ℤ) (address : String)
    (m : List (String × VipActivity)) (r : Fill) :
    (classifyFill false now_ms address m r).1 = m := by
  simp only [classifyFill]
  rw [if_neg (by simp)]
  split_ifs <;> rfl

/-- The transfer fold of `classify_events` leaves the tracker unchanged
when the address is not elevated. -/
theorem snd_foldl_transfers_nonvip (now_ms : ℤ) (address : String) :
    ∀ (rs : List Transfer) (acc : List Finding × List (String × VipActivity)),
      (rs.foldl (fun acc r =>
        (acc.1 ++ (classifyTransfer false now_ms address acc.2 r).2,
          (classifyTransfer false now_ms address acc.2 r).1)) acc).2 = acc.2
  | [], _ => rfl
  | r :: rest, acc => by
      rw [List.foldl_cons, snd_foldl_transfers_nonvip now_ms address rest]
      exact classifyTransfer_nonvip now_ms address acc.2 r

/-- The fill fold of `classify_events` leaves the tracker unchanged when
the address is not elevated. -/
theorem snd_foldl_fills_nonvip (now_ms : ℤ) (address : String) :
    ∀ (rs : List Fill) (acc : List Finding × List (String × VipActivity)),
      (rs.foldl (fun acc r =>
        (acc.1 ++ (classifyFill false now_ms address acc.2 r).2,
          (classifyFill false now_ms address acc.2 r).1)) acc).2 = acc.2
  | [], _ => rfl
  | r :: rest, acc => by
      rw [List.foldl_cons, snd_foldl_fills_nonvip now_ms address rest]
      exact classifyFill_nonvip now_ms address acc.2 r

/-- Counterexample to C4 as stated: classifying a single deposit for an
elevated address mutates the process-wide per-wallet activity tracker
(`track_vip_activity` runs inside `classify_events`). -/
theorem c4_classifier_counterexample :
    (classify_events ["0xv"] [] 1000 "0xv" []
      [{ typ := "Deposit", token := "USDC", usdamount := 100, hash := "h1",
         time := 500 }]).2 ≠ [] := by
  have hv : is_vip ["0xv"] "0xv" = true := by decide
  simp only [classify_events, hv, List.foldl_cons, List.foldl_nil]
  have harm : (classifyTransfer true 1000 "0xv" []
      { typ := "Deposit", token := "USDC", usdamount := 100, hash := "h1",
        time := 500 }).1 =
      track_vip_activity [] 1000 "0xv" "Deposit" 100 "" 0 "" := by
    unfold classifyTransfer
    rw [if_pos (by simp)]
  rw [harm]
  unfold track_vip_activity alStore
  simp

/-- C4 (amended): the classifier performs no persistence and, for a
non-elevated address, is pure — in particular the per-wallet activity
tracker is left unchanged for every input.  (For elevated addresses the
tracker is updated, as the counterexample shows.) -/
theorem c4_classifier_nonvip_pure :
    ∀ (vip : List String) (m : List (String × VipActivity)) (now_ms : ℤ)
      (address : String) (perps : List Fill) (transfers : List Transfer),
      pyLower address ∉ vip →
      (classify_events vip m now_ms address perps transfers).2 = m := by
  intro vip m now_ms address perps transfers h
  have hv : is_vip vip address = false := by
    simp [is_vip, h]
  unfold classify_events
  rw [hv]
  rw [snd_foldl_fills_nonvip now_ms address perps]
  rw [snd_foldl_transfers_nonvip now_ms address transfers]

/-- Witness for C4 (amended) at a concrete non-elevated classification. -/
theorem c4_classifier_nonvip_pure_witness :
    pyLower "0xother" ∉ ["0xv"] ∧
      (classify_events ["0xv"] [] 1000 "0xother"
        [{ typ := "short_open", token := "BTC", amount := 10, px := 5,
           usdamount := 50, notional := 50, hash := "h2", time := 700,
           side := "sell", oid := "o1" }]
        [{ typ := "Deposit", token := "USDC", usdamount := 100, hash := "h1",
           time := 500 }]).2 = [] :=
  ⟨by decide,
    c4_classifier_nonvip_pure ["0xv"] [] 1000 "0xother"
      [{ typ := "short_open", token := "BTC", amount := 10, px := 5,
         usdamount := 50, notional := 50, hash := "h2", time := 700,
         side := "sell", oid := "o1" }]
      [{ typ := "Deposit", token := "USDC", usdamount := 100, hash := "h1",
         time := 500 }] (by decide)⟩

/-- Looking up a cursor right after `set_cursor` returns the value just
written. -/
theorem lookup_set_cursor (k : String) (v : ℤ) :
    ∀ cursors : List (String × ℤ), (set_cursor cursors k v).lookup k = some v := by
  intro cursors
  induction cursors with
  | nil => simp [set_cursor, List.lookup]
  | cons p rest ih =>
      unfold set_cursor at ih ⊢
      rw [List.filter_cons]
      by_cases h : p.1 = k
      · rw [if_neg (by simp [h])]
        exact ih
      · rw [if_pos (by simp [h])]
        have hbeq : (k == p.1) = false := by
          rw [beq_eq_false_iff_ne]
          exact fun he => h he.symm
        simpa [List.lookup, hbeq] using ih

/-- Counterexample to C3 as stated: a cycle whose wall clock reads 1000 ms
at the start of the address's iteration (the pass start T) and 2000 ms at
the final `set_cursor` persists 2000, not T = 1000 — the source advances
the cursor to `now_utc()` at the end of the iteration (line 1416), not to
the pass's start time. -/
theorem c3_cursor_counterexample :
    ((scan_once ⟨[], ["a"], []⟩ ⟨[], ∅, [], []⟩
        (fun _ => ⟨Except.ok ([], []), 1000, 1500, 2000⟩)).cursors.lookup
      "hyperliquid:addr:a") = some 2000 ∧
    ¬((scan_once ⟨[], ["a"], []⟩ ⟨[], ∅, [], []⟩
        (fun _ => ⟨Except.ok ([], []), 1000, 1500, 2000⟩)).cursors.lookup
      "hyperliquid:addr:a") = some 1000 := by
  constructor
  · decide
  · decide

/-- C3 (amended): after an error-free iteration for an address, the
persisted cursor equals the wall-clock time of the final `set_cursor` call
at the end of that address's iteration — independent of every event
timestamp observed and of the time at which the pass started. -/
theorem c3_cursor_equals_end_clock :
    ∀ (wst : WatchState) (st : ScanState) (addr : String) (inp : AddrCycleInput)
      (perps : List Fill) (transfers : List Transfer),
      inp.fetched = Except.ok (perps, transfers) →
      ((scan_address wst st addr inp).1.cursors.lookup
        ("hyperliquid:addr:" ++ addr)) = some inp.nowCursorMs := by
  intro wst st addr inp perps transfers h
  unfold scan_address
  rw [h]
  exact lookup_set_cursor _ _ _

/-- Witness for C3 (amended) at a concrete iteration with a nonempty fill
list whose timestamps differ from the persisted cursor value. -/
theorem c3_cursor_equals_end_clock_witness :
    (⟨Except.ok ([(⟨"short_open", "BTC", 1, 3, 3, 3, "h9", 999999, "sell", "o9"⟩ : Fill)], []),
        1000, 1500, 2000⟩ : AddrCycleInput).fetched =
      Except.ok ([(⟨"short_open", "BTC", 1, 3, 3, 3, "h9", 999999, "sell", "o9"⟩ : Fill)],
        ([] : List Transfer)) ∧
    ((scan_address ⟨[], ["a"], []⟩ ⟨[], ∅, [], []⟩ "a"
        (⟨Except.ok ([(⟨"short_open", "BTC", 1, 3, 3, 3, "h9", 999999, "sell", "o9"⟩ : Fill)], []),
          1000, 1500, 2000⟩ : AddrCycleInput)).1.cursors.lookup
      ("hyperliquid:addr:" ++ "a")) = some 2000 :=
  ⟨rfl,
    c3_cursor_equals_end_clock ⟨[], ["a"], []⟩ ⟨[], ∅, [], []⟩ "a"
      (⟨Except.ok ([(⟨"short_open", "BTC", 1, 3, 3, 3, "h9", 999999, "sell", "o9"⟩ : Fill)], []),
        1000, 1500, 2000⟩ : AddrCycleInput)
      [(⟨"short_open", "BTC", 1, 3, 3, 3, "h9", 999999, "sell", "o9"⟩ : Fill)] [] rfl⟩

/-- Fewer than three trades never form a cluster. -/
theorem detect_none_of_short (ages : String → ℤ) (trades : List Trade) (w : ℚ)
    (h : trades.length < 3) : detect_trading_cluster ages trades w = none := by
  unfold detect_trading_cluster
  rw [if_pos h]

/-- A set whose computed suspicion score misses the minimum never forms a
cluster. -/
theorem detect_none_of_score (ages : String → ℤ) (trades : List Trade) (w : ℚ)
    (h : calculate_suspicion_score (clusterData ages trades) < CLUSTER_MIN_SCORE) :
    detect_trading_cluster ages trades w = none := by
  unfold detect_trading_cluster
  split_ifs with h1 h2 h3 h4 h5 h6 <;> first | rfl | exact (h6 h).elim

/-- A set whose directional alignment misses the 0.8 gate never forms a
cluster. -/
theorem detect_none_of_alignment (ages : String → ℤ) (trades : List Trade) (w : ℚ)
    (h : clusterAlignment trades < 0.8) :
    detect_trading_cluster ages trades w = none := by
  unfold detect_trading_cluster
  split_ifs with h1 h2 h3 h4 h5 <;> first | rfl | exact (h5 h).elim

/-- When every gate passes, the detector returns the fully populated
cluster record. -/
theorem detect_eq_some (ages : String → ℤ) (trades : List Trade) (w : ℚ)
    (h1 : ¬trades.length < 3) (h2 : ¬(clusterWallets trades).length < 2)
    (h3 : ¬clusterTimeSpan trades > w)
    (h4 : ¬clusterTotalNotional trades < CLUSTER_MIN_NOTIONAL)
    (h5 : ¬clusterAlignment trades < 0.8)
    (h6 : ¬calculate_suspicion_score (clusterData ages trades) < CLUSTER_MIN_SCORE) :
    detect_trading_cluster ages trades w = some
      { cluster_id := sha_key [toString (listMin (clusterTimestamps trades)),
          toString (clusterWallets trades).length, clusterToken trades,
          clusterDirection trades]
        wallets := clusterWallets trades
        trades := trades
        token := clusterToken trades
        direction := clusterDirection trades
        score := calculate_suspicion_score (clusterData ages trades)
        total_notional := clusterTotalNotional trades
        time_window := clusterTimeSpan trades
        first_trade_ms := listMin (clusterTimestamps trades)
        last_trade_ms := listMax (clusterTimestamps trades)
        trade_count := trades.length
        alignment := clusterAlignment trades
        size_clustering_cv := detect_size_clustering trades
        cross_token_count := detect_cross_token_coordination trades } := by
  unfold detect_trading_cluster
  rw [if_neg h1, if_neg h2, if_neg h3, if_neg h4, if_neg h5, if_neg h6]

/-- Any cluster the detector returns carries a score at or above the
configured minimum. -/
theorem detect_some_score_ge (ages : String → ℤ) (trades : List Trade) (w : ℚ)
    (c : Cluster) (h : detect_trading_cluster ages trades w = some c) :
    CLUSTER_MIN_SCORE ≤ c.score := by
  unfold detect_trading_cluster at h
  split_ifs at h with h1 h2 h3 h4 h5 h6
  all_goals try exact absurd h (fun hh => Option.noConfusion hh)
  all_goals
    injection h with hc
    subst hc
    exact le_of_not_lt h6

/-- A 3-trade, 2-wallet, fully sell-aligned set above the notional floor
and inside the window, but spread over 59 minutes: its score is only 40. -/
def gatingSlackTrades : List Trade :=
  [⟨"i1", "a", "BTC", "sell", 17000000, 0, 30⟩,
   ⟨"i2", "b", "BTC", "sell", 17000000, 1000000, 30⟩,
   ⟨"i3", "a", "BTC", "sell", 17000000, 3540000, 30⟩]

/-- The same shape packed into 20 seconds with equal sizes: score 75. -/
def gatingTightTrades : List Trade :=
  [⟨"i1", "a", "BTC", "sell", 20000000, 0, 30⟩,
   ⟨"i2", "b", "BTC", "sell", 20000000, 10000, 30⟩,
   ⟨"i3", "a", "BTC", "sell", 20000000, 20000, 30⟩]

/-- A list of equal positive rationals has sample variance zero and that
value as mean. -/
theorem sampleStats_three_equal (v : ℚ) (hv : v ≠ 0) :
    sampleMean [v, v, v] = v ∧ sampleVariance [v, v, v] = 0 := by
  constructor
  · rw [sampleMean]
    norm_num
    ring
  · rw [sampleVariance, sampleMean]
    norm_num
    ring

/-- Size clustering of three equal-notional positive trades is zero. -/
theorem detect_size_clustering_of_three_equal (trades : List Trade) (v : ℚ)
    (hv : 0 < v) (hp : positiveNotionals trades = [v, v, v]) :
    detect_size_clustering trades = 0 := by
  obtain ⟨hm, hvar⟩ := sampleStats_three_equal v (ne_of_gt hv)
  simp only [detect_size_clustering]
  rw [hp]
  rw [if_neg (by norm_num), if_neg (by rw [hm]; exact ne_of_gt hv),
    if_pos (by norm_num)]
  rw [hvar, hm]
  simp

/-- Score of the slack bundle: 40, below the default minimum of 70. -/
theorem score_slack_bundle :
    calculate_suspicion_score
      { wallet_count := 2, total_notional := 51000000, time_span := 59,
        alignment := 1, avg_wallet_age := 30, size_clustering_cv := 0,
        cross_token_count := 0 } = 40 := by
  have e1 : timingScore 59 = 5 := by norm_num [timingScore]
  have e2 : notionalScore 51000000 = 4 := by
    have hq : ((51000000 : ℚ) / 100000000 * 8) = 102 / 25 := by norm_num
    have hfl : Int.floor ((102 : ℚ) / 25) = 4 := by
      rw [Int.floor_eq_iff] <;> norm_num
    have hp : pyInt ((102 : ℚ) / 25) = 4 := by
      rw [pyInt, if_pos (by norm_num), hfl]
    rw [notionalScore, hq, hp]
    omega
  have e3 : walletCountScore 2 = 6 := by rw [walletCountScore]; omega
  have e4 : ageScore 30 = 0 := by norm_num [ageScore]
  have e5 : alignmentScore 1 = 10 := by norm_num [alignmentScore]
  have e6 : sizeCvScore 0 = 15 := by norm_num [sizeCvScore]
  have e7 : crossTokenScore 0 = 0 := by norm_num [crossTokenScore]
  have e8 : timingPrecisionBonus 59 = 0 := by norm_num [timingPrecisionBonus]
  have h : calculate_suspicion_score
      { wallet_count := 2, total_notional := 51000000, time_span := 59,
        alignment := 1, avg_wallet_age := 30, size_clustering_cv := 0,
        cross_token_count := 0 } =
      min 100 (timingScore 59 + notionalScore 51000000 + walletCountScore 2 +
        ageScore 30 + alignmentScore 1 + sizeCvScore 0 + crossTokenScore 0 +
        timingPrecisionBonus 59) := rfl
  rw [h, e1, e2, e3, e4, e5, e6, e7, e8]
  omega

/-- Score of the tight bundle: 75, above the default minimum of 70. -/
theorem score_tight_bundle :
    calculate_suspicion_score
      { wallet_count := 2, total_notional := 60000000, time_span := 1 / 3,
        alignment := 1, avg_wallet_age := 30, size_clustering_cv := 0,
        cross_token_count := 0 } = 75 := by
  have e1 : timingScore (1 / 3) = 30 := by norm_num [timingScore]
  have e2 : notionalScore 60000000 = 4 := by
    have hq : ((60000000 : ℚ) / 100000000 * 8) = 24 / 5 := by norm_num
    have hfl : Int.floor ((24 : ℚ) / 5) = 4 := by
      rw [Int.floor_eq_iff] <;> norm_num
    have hp : pyInt ((24 : ℚ) / 5) = 4 := by
      rw [pyInt, if_pos (by norm_num), hfl]
    rw [notionalScore, hq, hp]
    omega
  have e3 : walletCountScore 2 = 6 := by rw [walletCountScore]; omega
  have e4 : ageScore 30 = 0 := by norm_num [ageScore]
  have e5 : alignmentScore 1 = 10 := by norm_num [alignmentScore]
  have e6 : sizeCvScore 0 = 15 := by norm_num [sizeCvScore]
  have e7 : crossTokenScore 0 = 0 := by norm_num [crossTokenScore]
  have e8 : timingPrecisionBonus (1 / 3) = 10 := by norm_num [timingPrecisionBonus]
  have h : calculate_suspicion_score
      { wallet_count := 2, total_notional := 60000000, time_span := 1 / 3,
        alignment := 1, avg_wallet_age := 30, size_clustering_cv := 0,
        cross_token_count := 0 } =
      min 100 (timingScore (1 / 3) + notionalScore 60000000 + walletCountScore 2 +
        ageScore 30 + alignmentScore 1 + sizeCvScore 0 + crossTokenScore 0 +
        timingPrecisionBonus (1 / 3)) := rfl
  rw [h, e1, e2, e3, e4, e5, e6, e7, e8]
  omega

/-- Signal bundle of the slack trade set. -/
theorem clusterData_slack :
    clusterData (fun _ => 30) gatingSlackTrades =
      { wallet_count := 2, total_notional := 51000000, time_span := 59,
        alignment := 1, avg_wallet_age := 30, size_clustering_cv := 0,
        cross_token_count := 0 } := by
  have hw : clusterWallets gatingSlackTrades = ["b", "a"] := by decide
  have hlen : (clusterWallets gatingSlackTrades).length = 2 := by rw [hw]; rfl
  have htot : clusterTotalNotional gatingSlackTrades = 51000000 := by
    norm_num [clusterTotalNotional, gatingSlackTrades]
  have hmax : listMax (clusterTimestamps gatingSlackTrades) = 3540000 := by decide
  have hmin : listMin (clusterTimestamps gatingSlackTrades) = 0 := by decide
  have hspan : clusterTimeSpan gatingSlackTrades = 59 := by
    rw [clusterTimeSpan, hmax, hmin]
    norm_num
  have hsell : sellCount gatingSlackTrades = 3 := by decide
  have hbuy : buyCount gatingSlackTrades = 0 := by decide
  have hslen : (clusterSides gatingSlackTrades).length = 3 := by decide
  have halign : clusterAlignment gatingSlackTrades = 1 := by
    rw [clusterAlignment, if_neg (by decide), hsell, hbuy, hslen]
    norm_num
  have havg : clusterAvgAge (fun _ => 30) gatingSlackTrades = 30 := by
    simp only [clusterAvgAge]
    rw [hw]
    norm_num
  have hp : positiveNotionals gatingSlackTrades = [17000000, 17000000, 17000000] := by
    norm_num [positiveNotionals, gatingSlackTrades]
  have hcv : detect_size_clustering gatingSlackTrades = 0 :=
    detect_size_clustering_of_three_equal _ _ (by norm_num) hp
  have hcross : detect_cross_token_coordination gatingSlackTrades = 0 := by decide
  simp only [clusterData]
  rw [hlen, htot, hspan, halign, havg, hcv, hcross]

/-- Signal bundle of the tight trade set. -/
theorem clusterData_tight :
    clusterData (fun _ => 30) gatingTightTrades =
      { wallet_count := 2, total_notional := 60000000, time_span := 1 / 3,
        alignment := 1, avg_wallet_age := 30, size_clustering_cv := 0,
        cross_token_count := 0 } := by
  have hw : clusterWallets gatingTightTrades = ["b", "a"] := by decide
  have hlen : (clusterWallets gatingTightTrades).length = 2 := by rw [hw]; rfl
  have htot : clusterTotalNotional gatingTightTrades = 60000000 := by
    norm_num [clusterTotalNotional, gatingTightTrades]
  have hmax : listMax (clusterTimestamps gatingTightTrades) = 20000 := by decide
  have hmin : listMin (clusterTimestamps gatingTightTrades) = 0 := by decide
  have hspan : clusterTimeSpan gatingTightTrades = 1 / 3 := by
    rw [clusterTimeSpan, hmax, hmin]
    norm_num
  have hsell : sellCount gatingTightTrades = 3 := by decide
  have hbuy : buyCount gatingTightTrades = 0 := by decide
  have hslen : (clusterSides gatingTightTrades).length = 3 := by decide
  have halign : clusterAlignment gatingTightTrades = 1 := by
    rw [clusterAlignment, if_neg (by decide), hsell, hbuy, hslen]
    norm_num
  have havg : clusterAvgAge (fun _ => 30) gatingTightTrades = 30 := by
    simp only [clusterAvgAge]
    rw [hw]
    norm_num
  have hp : positiveNotionals gatingTightTrades = [20000000, 20000000, 20000000] := by
    norm_num [positiveNotionals, gatingTightTrades]
  have hcv : detect_size_clustering gatingTightTrades = 0 :=
    detect_size_clustering_of_three_equal _ _ (by norm_num) hp
  have hcross : detect_cross_token_coordination gatingTightTrades = 0 := by decide
  simp only [clusterData]
  rw [hlen, htot, hspan, halign, havg, hcv, hcross]

/-- A 3-trade set passing every structural gate forms a cluster exactly
when its score reaches the minimum. -/
theorem detect_some_of_gates (ages : String → ℤ) (trades : List Trade) (w : ℚ)
    (h3 : trades.length = 3) (hw : 2 ≤ (clusterWallets trades).length)
    (hal : 9 / 10 ≤ clusterAlignment trades)
    (ht : CLUSTER_MIN_NOTIONAL ≤ clusterTotalNotional trades)
    (hs : clusterTimeSpan trades ≤ w)
    (hsc : CLUSTER_MIN_SCORE ≤ calculate_suspicion_score (clusterData ages trades)) :
    ∃ c, detect_trading_cluster ages trades w = some c ∧
      CLUSTER_MIN_SCORE ≤ c.score := by
  refine ⟨_, detect_eq_some ages trades w (by omega) (by omega)
    (not_lt.mpr hs) (not_lt.mpr ht)
    (not_lt.mpr (by norm_num at hal ⊢; linarith)) (not_lt.mpr hsc), hsc⟩

/-- Counterexample to C2 as stated: `gatingSlackTrades` has 3 trades
across 2 wallets, alignment 1 ≥ 0.90, total notional $51M above the $50M
floor, and a 59-minute span inside the 60-minute window, yet the detector
yields no cluster — its score is only 40, below the minimum of 70. -/
theorem c2_cluster_gating_counterexample :
    gatingSlackTrades.length = 3 ∧
    (clusterWallets gatingSlackTrades).length = 2 ∧
    9 / 10 ≤ clusterAlignment gatingSlackTrades ∧
    CLUSTER_MIN_NOTIONAL < clusterTotalNotional gatingSlackTrades ∧
    clusterTimeSpan gatingSlackTrades ≤ CLUSTER_TIME_WINDOW_MINUTES ∧
    detect_trading_cluster (fun _ => 30) gatingSlackTrades
      CLUSTER_TIME_WINDOW_MINUTES = none := by
  have halign : clusterAlignment gatingSlackTrades = 1 :=
    congrArg ClusterData.alignment clusterData_slack
  have htot : clusterTotalNotional gatingSlackTrades = 51000000 :=
    congrArg ClusterData.total_notional clusterData_slack
  have hspan : clusterTimeSpan gatingSlackTrades = 59 :=
    congrArg ClusterData.time_span clusterData_slack
  have hwc : (clusterWallets gatingSlackTrades).length = 2 :=
    congrArg ClusterData.wallet_count clusterData_slack
  refine ⟨rfl, hwc, by rw [halign]; norm_num, ?_, ?_, ?_⟩
  · rw [htot, CLUSTER_MIN_NOTIONAL]
    norm_num
  · rw [hspan, CLUSTER_TIME_WINDOW_MINUTES]
    norm_num
  · refine detect_none_of_score _ _ _ ?_
    rw [clusterData_slack, score_slack_bundle, CLUSTER_MIN_SCORE]
    norm_num

/-- C2 (amended): a 2-trade list never yields a cluster; a 2-wallet list
with alignment 0.70 never yields a cluster; any cluster the detector
yields has score at or above the configured minimum; a 3-trade, 2-wallet
list with alignment ≥ 0.90, notional at or above the floor and span within
the window yields a cluster exactly when its computed suspicion score
reaches the minimum — and such lists exist (tightly timed, equal-sized
trades qualify). -/
theorem c2_cluster_gating :
    (∀ (ages : String → ℤ) (trades : List Trade) (w : ℚ),
      trades.length = 2 → detect_trading_cluster ages trades w = none) ∧
    (∀ (ages : String → ℤ) (trades : List Trade) (w : ℚ),
      (clusterWallets trades).length = 2 → clusterAlignment trades = 7 / 10 →
      detect_trading_cluster ages trades w = none) ∧
    (∀ (ages : String → ℤ) (trades : List Trade) (w : ℚ) (c : Cluster),
      detect_trading_cluster ages trades w = some c →
      CLUSTER_MIN_SCORE ≤ c.score) ∧
    (∀ (ages : String → ℤ) (trades : List Trade) (w : ℚ),
      trades.length = 3 → 2 ≤ (clusterWallets trades).length →
      9 / 10 ≤ clusterAlignment trades →
      CLUSTER_MIN_NOTIONAL ≤ clusterTotalNotional trades →
      clusterTimeSpan trades ≤ w →
      CLUSTER_MIN_SCORE ≤ calculate_suspicion_score (clusterData ages trades) →
      ∃ c, detect_trading_cluster ages trades w = some c ∧
        CLUSTER_MIN_SCORE ≤ c.score) ∧
    (∃ c, detect_trading_cluster (fun _ => 30) gatingTightTrades
        CLUSTER_TIME_WINDOW_MINUTES = some c ∧ CLUSTER_MIN_SCORE ≤ c.score) := by
  refine ⟨fun ages trades w h => detect_none_of_short ages trades w (by omega),
    fun ages trades w hw hal => detect_none_of_alignment ages trades w ?_,
    fun ages trades w c h => detect_some_score_ge ages trades w c h,
    fun ages trades w h3 hw hal ht hs hsc =>
      detect_some_of_gates ages trades w h3 hw hal ht hs hsc, ?_⟩
  · rw [hal]
    norm_num
  · refine detect_some_of_gates (fun _ => 30) gatingTightTrades
      CLUSTER_TIME_WINDOW_MINUTES rfl ?_ ?_ ?_ ?_ ?_
    · rw [show (clusterWallets gatingTightTrades).length = 2 from
        congrArg ClusterData.wallet_count clusterData_tight]
    · rw [show clusterAlignment gatingTightTrades = 1 from
        congrArg ClusterData.alignment clusterData_tight]
      norm_num
    · rw [show clusterTotalNotional gatingTightTrades = 60000000 from
        congrArg ClusterData.total_notional clusterData_tight, CLUSTER_MIN_NOTIONAL]
      norm_num
    · rw [show clusterTimeSpan gatingTightTrades = 1 / 3 from
        congrArg ClusterData.time_span clusterData_tight, CLUSTER_TIME_WINDOW_MINUTES]
      norm_num
    · rw [clusterData_tight, score_tight_bundle, CLUSTER_MIN_SCORE]
      norm_num

/-- Witness for C2 (amended), applying the gating theorem at concrete
inputs: a two-trade list and the slack/tight facts. -/
theorem c2_cluster_gating_witness :
    ([(⟨"i1", "a", "BTC", "sell", 17000000, 0, 30⟩ : Trade),
      ⟨"i2", "b", "BTC", "sell", 17000000, 1000, 30⟩].length = 2 ∧
      detect_trading_cluster (fun _ => 30)
        [(⟨"i1", "a", "BTC", "sell", 17000000, 0, 30⟩ : Trade),
         ⟨"i2", "b", "BTC", "sell", 17000000, 1000, 30⟩] 60 = none) ∧
    (∃ c, detect_trading_cluster (fun _ => 30) gatingTightTrades
        CLUSTER_TIME_WINDOW_MINUTES = some c ∧ CLUSTER_MIN_SCORE ≤ c.score) :=
  ⟨⟨rfl,
      c2_cluster_gating.1 (fun _ => 30)
        [(⟨"i1", "a", "BTC", "sell", 17000000, 0, 30⟩ : Trade),
         ⟨"i2", "b", "BTC", "sell", 17000000, 1000, 30⟩] 60 rfl⟩,
    c2_cluster_gating.2.2.2.2⟩

/-- A recognized sell-side label is already lower-case and is not a buy
label. -/
theorem sellSide_facts {s : String} (h : s ∈ sellSideLabels) :
    pyLower s = s ∧ s ∉ buySideLabels := by
  fin_cases h <;> exact ⟨by decide, by decide⟩

/-- The notional signal of a $60M cluster: `int(0.6 * 8) = 4` points. -/
theorem notionalScore_60M : notionalScore 60000000 = 4 := by
  have hq : ((60000000 : ℚ) / 100000000 * 8) = 24 / 5 := by norm_num
  have hfl : Int.floor ((24 : ℚ) / 5) = 4 := by
    rw [Int.floor_eq_iff] <;> norm_num
  have hp : pyInt ((24 : ℚ) / 5) = 4 := by
    rw [pyInt, if_pos (by norm_num), hfl]
  rw [notionalScore, hq, hp]
  omega

/-- One pass of `scan_for_clusters` over a single-token trade archive with
a fresh (unseen) detected cluster: it records, saves, and promotes exactly
that cluster. -/
theorem scan_for_clusters_single (ages : String → ℤ) (recent : List Trade)
    (seen : Finset String) (wst : WatchState) (tok : String) (c : Cluster)
    (hlen : ¬recent.length < 3)
    (hfilt0 : recent.filter (fun t => t.token ≠ "") = recent)
    (htoks : (recent.map (fun t => t.token)).dedup = [tok])
    (hfilt : recent.filter (fun t => t.token = tok) = recent)
    (hdet : detect_trading_cluster ages recent CLUSTER_TIME_WINDOW_MINUTES = some c)
    (hseen : is_seen seen c.cluster_id = false) :
    scan_for_clusters ages recent seen wst =
      { clusters := [c], promotions := [c.wallets],
        seen := mark_seen seen c.cluster_id,
        watch := add_wallets_to_vip wst c.wallets } := by
  unfold scan_for_clusters
  rw [if_neg hlen, hfilt0, htoks, List.foldl_cons, List.foldl_nil, hfilt,
    if_neg hlen, hdet]
  simp only
  rw [if_neg (by rw [hseen]; exact Bool.false_ne_true)]
  simp

/-- C1: three $20M sell-side large-trade records on one instrument from
three distinct non-elevated wallets, all within 45 seconds, under the
default thresholds and the default wallet-age fallback: the cluster scan
yields exactly one cluster — wallet count 3, direction SHORT, alignment
1.0 — and issues exactly one promotion call that adds all three wallets to
the elevated set. -/
theorem c1_end_to_end_cluster_promotion :
    ∀ (w1 w2 w3 tok s1 s2 s3 : String) (t1 t2 t3 : ℤ) (wst : WatchState)
      (trades : List Trade),
      trades = [⟨"i1", w1, tok, s1, 20000000, t1, 30⟩,
                ⟨"i2", w2, tok, s2, 20000000, t2, 30⟩,
                ⟨"i3", w3, tok, s3, 20000000, t3, 30⟩] →
      w1 ≠ w2 → w1 ≠ w3 → w2 ≠ w3 →
      w1 ≠ "" → w2 ≠ "" → w3 ≠ "" → tok ≠ "" →
      s1 ∈ sellSideLabels → s2 ∈ sellSideLabels → s3 ∈ sellSideLabels →
      t1 ≤ t2 + 45000 → t2 ≤ t1 + 45000 → t1 ≤ t3 + 45000 →
      t3 ≤ t1 + 45000 → t2 ≤ t3 + 45000 → t3 ≤ t2 + 45000 →
      pyLower w1 ∉ wst.vip → pyLower w2 ∉ wst.vip → pyLower w3 ∉ wst.vip →
      ∃ c, (scan_for_clusters (fun _ => 30) trades ∅ wst).clusters = [c] ∧
        c.wallets.length = 3 ∧ c.direction = "SHORT" ∧ c.alignment = 1 ∧
        (scan_for_clusters (fun _ => 30) trades ∅ wst).promotions = [c.wallets] ∧
        pyLower w1 ∈ (scan_for_clusters (fun _ => 30) trades ∅ wst).watch.vip ∧
        pyLower w2 ∈ (scan_for_clusters (fun _ => 30) trades ∅ wst).watch.vip ∧
        pyLower w3 ∈ (scan_for_clusters (fun _ => 30) trades ∅ wst).watch.vip := by
  intro w1 w2 w3 tok s1 s2 s3 t1 t2 t3 wst trades htr hw12 hw13 hw23 hne1 hne2
    hne3 htok hs1 hs2 hs3 ht12 ht21 ht13 ht31 ht23 ht32 hv1 hv2 hv3
  obtain ⟨hl1, hb1⟩ := sellSide_facts hs1
  obtain ⟨hl2, hb2⟩ := sellSide_facts hs2
  obtain ⟨hl3, hb3⟩ := sellSide_facts hs3
  have hnd : ([w1, w2, w3] : List String).Nodup := by
    simp [List.nodup_cons, hw12, hw13, hw23]
  have hwalls : clusterWallets trades = [w1, w2, w3] := by
    rw [htr, clusterWallets]
    show ([w1, w2, w3] : List String).dedup = [w1, w2, w3]
    exact List.dedup_eq_self.mpr hnd
  have hwlen : (clusterWallets trades).length = 3 := by rw [hwalls]; rfl
  have hmax : listMax (clusterTimestamps trades) = max (max t1 t2) t3 := by
    rw [htr]; rfl
  have hmin : listMin (clusterTimestamps trades) = min (min t1 t2) t3 := by
    rw [htr]; rfl
  have hbound : listMax (clusterTimestamps trades) -
      listMin (clusterTimestamps trades) ≤ 45000 := by
    rw [hmax, hmin]; omega
  have hspan_lt1 : clusterTimeSpan trades < 1 := by
    rw [clusterTimeSpan, div_lt_one (by norm_num)]
    have hc : ((listMax (clusterTimestamps trades) -
        listMin (clusterTimestamps trades) : ℤ) : ℚ) ≤ 45000 := by
      exact_mod_cast hbound
    linarith
  have hspan_le : clusterTimeSpan trades ≤ CLUSTER_TIME_WINDOW_MINUTES := by
    rw [CLUSTER_TIME_WINDOW_MINUTES]
    linarith
  have htot : clusterTotalNotional trades = 60000000 := by
    rw [htr, clusterTotalNotional]
    show ((20000000 : ℚ) + (20000000 + (20000000 + 0))) = 60000000
    norm_num
  have hsides : clusterSides trades = [s1, s2, s3] := by
    rw [htr]
    show [pyLower s1, pyLower s2, pyLower s3] = [s1, s2, s3]
    rw [hl1, hl2, hl3]
  have hsell : sellCount trades = 3 := by
    rw [sellCount, hsides]
    simp [hs1, hs2, hs3]
  have hbuy : buyCount trades = 0 := by
    rw [buyCount, hsides]
    simp [hb1, hb2, hb3]
  have hslen : (clusterSides trades).length = 3 := by rw [hsides]; rfl
  have halign : clusterAlignment trades = 1 := by
    rw [clusterAlignment, if_neg (by rw [hslen]; omega), hsell, hbuy, hslen]
    norm_num
  have hdir : clusterDirection trades = "SHORT" := by
    rw [clusterDirection, if_pos (by rw [hsell, hbuy]; omega)]
  have havg : clusterAvgAge (fun _ => 30) trades = 30 := by
    simp only [clusterAvgAge]
    rw [hwalls]
    norm_num
  have hp : positiveNotionals trades = [20000000, 20000000, 20000000] := by
    rw [htr]
    norm_num [positiveNotionals]
  have hcv : detect_size_clustering trades = 0 :=
    detect_size_clustering_of_three_equal _ _ (by norm_num) hp
  have hbeq21 : (w2 == w1) = false := beq_eq_false_iff_ne.mpr (Ne.symm hw12)
  have hbeq31 : (w3 == w1) = false := beq_eq_false_iff_ne.mpr (Ne.symm hw13)
  have hbeq32 : (w3 == w2) = false := beq_eq_false_iff_ne.mpr (Ne.symm hw23)
  have st2 : addWalletToken [(w1, [tok])] w2 tok = [(w1, [tok]), (w2, [tok])] := by
    simp [addWalletToken, List.lookup, hbeq21]
  have st3 : addWalletToken [(w1, [tok]), (w2, [tok])] w3 tok =
      [(w1, [tok]), (w2, [tok]), (w3, [tok])] := by
    simp [addWalletToken, List.lookup, hbeq31, hbeq32]
  have hcross : detect_cross_token_coordination trades = 0 := by
    rw [htr]
    simp only [detect_cross_token_coordination, List.foldl_cons, List.foldl_nil]
    rw [if_pos ⟨hne3, htok⟩, if_pos ⟨hne2, htok⟩, if_pos ⟨hne1, htok⟩]
    rw [show addWalletToken [] w1 tok = [(w1, [tok])] from rfl, st2, st3]
    rfl
  have hscore : calculate_suspicion_score (clusterData (fun _ => 30) trades) = 78 := by
    have hrfl : calculate_suspicion_score (clusterData (fun _ => 30) trades) =
        min 100 (timingScore (clusterTimeSpan trades) +
          notionalScore (clusterTotalNotional trades) +
          walletCountScore (clusterWallets trades).length +
          ageScore (clusterAvgAge (fun _ => 30) trades) +
          alignmentScore (clusterAlignment trades) +
          sizeCvScore (detect_size_clustering trades) +
          crossTokenScore (detect_cross_token_coordination trades) +
          timingPrecisionBonus (clusterTimeSpan trades)) := rfl
    have htm : timingScore (clusterTimeSpan trades) = 30 := by
      rw [timingScore, if_pos hspan_lt1]
    have hbn : timingPrecisionBonus (clusterTimeSpan trades) = 10 := by
      rw [timingPrecisionBonus, if_pos hspan_lt1]
    have hwc : walletCountScore 3 = 9 := by rw [walletCountScore]; omega
    have hag : ageScore 30 = 0 := by norm_num [ageScore]
    have hali : alignmentScore 1 = 10 := by norm_num [alignmentScore]
    have hcv15 : sizeCvScore 0 = 15 := by norm_num [sizeCvScore]
    have hct : crossTokenScore 0 = 0 := by norm_num [crossTokenScore]
    rw [hrfl, htm, hbn, htot, notionalScore_60M, hwlen, hwc, havg, hag, halign,
      hali, hcv, hcv15, hcross, hct]
    omega
  have g1 : ¬trades.length < 3 := by rw [htr]; simp
  have g2 : ¬(clusterWallets trades).length < 2 := by rw [hwlen]; omega
  have g3 : ¬clusterTimeSpan trades > CLUSTER_TIME_WINDOW_MINUTES :=
    not_lt.mpr hspan_le
  have g4 : ¬clusterTotalNotional trades < CLUSTER_MIN_NOTIONAL := by
    rw [htot, CLUSTER_MIN_NOTIONAL]
    norm_num
  have g5 : ¬clusterAlignment trades < 0.8 := by
    rw [halign]
    norm_num
  have g6 : ¬calculate_suspicion_score (clusterData (fun _ => 30) trades) <
      CLUSTER_MIN_SCORE := by
    rw [hscore, CLUSTER_MIN_SCORE]
    omega
  have hdet := detect_eq_some (fun _ => 30) trades CLUSTER_TIME_WINDOW_MINUTES
    g1 g2 g3 g4 g5 g6
  have hf0 : trades.filter (fun t => t.token ≠ "") = trades := by
    refine List.filter_eq_self.mpr (fun a ha => ?_)
    rw [htr] at ha
    fin_cases ha <;> simpa using htok
  have htoks : (trades.map (fun t => t.token)).dedup = [tok] := by
    rw [htr]
    show ([tok, tok, tok] : List String).dedup = [tok]
    simp
  have hf1 : trades.filter (fun t => t.token = tok) = trades := by
    refine List.filter_eq_self.mpr (fun a ha => ?_)
    rw [htr] at ha
    fin_cases ha <;> simp
  have hscan := scan_for_clusters_single (fun _ => 30) trades ∅ wst tok _
    g1 hf0 htoks hf1 hdet (by simp [is_seen])
  refine ⟨{ cluster_id := sha_key [toString (listMin (clusterTimestamps trades)),
              toString (clusterWallets trades).length, clusterToken trades,
              clusterDirection trades],
            wallets := clusterWallets trades, trades := trades,
            token := clusterToken trades, direction := clusterDirection trades,
            score := calculate_suspicion_score (clusterData (fun _ => 30) trades),
            total_notional := clusterTotalNotional trades,
            time_window := clusterTimeSpan trades,
            first_trade_ms := listMin (clusterTimestamps trades),
            last_trade_ms := listMax (clusterTimestamps trades),
            trade_count := trades.length, alignment := clusterAlignment trades,
            size_clustering_cv := detect_size_clustering trades,
            cross_token_count := detect_cross_token_coordination trades },
    ?_, ?_, ?_, ?_, ?_, ?_, ?_, ?_⟩
  · rw [hscan]
  · exact hwlen
  · exact hdir
  · exact halign
  · rw [hscan]
  · rw [hscan]
    show pyLower w1 ∈ (add_wallets_to_vip wst (clusterWallets trades)).vip
    rw [hwalls]
    exact List.mem_append_right _ (List.mem_filter.mpr
      ⟨List.mem_map.mpr ⟨w1, by simp, rfl⟩, by simpa using hv1⟩)
  · rw [hscan]
    show pyLower w2 ∈ (add_wallets_to_vip wst (clusterWallets trades)).vip
    rw [hwalls]
    exact List.mem_append_right _ (List.mem_filter.mpr
      ⟨List.mem_map.mpr ⟨w2, by simp, rfl⟩, by simpa using hv2⟩)
  · rw [hscan]
    show pyLower w3 ∈ (add_wallets_to_vip wst (clusterWallets trades)).vip
    rw [hwalls]
    exact List.mem_append_right _ (List.mem_filter.mpr
      ⟨List.mem_map.mpr ⟨w3, by simp, rfl⟩, by simpa using hv3⟩)

/-- Witness for C1 at three concrete wallets trading BTC within 45
seconds, starting from a seeded watch state. -/
theorem c1_end_to_end_cluster_promotion_witness :
    ∃ c, (scan_for_clusters (fun _ => 30)
        [(⟨"i1", "wa", "BTC", "sell", 20000000, 0, 30⟩ : Trade),
         ⟨"i2", "wb", "BTC", "sell", 20000000, 20000, 30⟩,
         ⟨"i3", "wc", "BTC", "sell", 20000000, 45000, 30⟩] ∅
        ⟨["0xseed"], ["0xseed"], []⟩).clusters = [c] ∧
      c.wallets.length = 3 ∧ c.direction = "SHORT" ∧ c.alignment = 1 ∧
      (scan_for_clusters (fun _ => 30)
        [(⟨"i1", "wa", "BTC", "sell", 20000000, 0, 30⟩ : Trade),
         ⟨"i2", "wb", "BTC", "sell", 20000000, 20000, 30⟩,
         ⟨"i3", "wc", "BTC", "sell", 20000000, 45000, 30⟩] ∅
        ⟨["0xseed"], ["0xseed"], []⟩).promotions = [c.wallets] ∧
      pyLower "wa" ∈ (scan_for_clusters (fun _ => 30)
        [(⟨"i1", "wa", "BTC", "sell", 20000000, 0, 30⟩ : Trade),
         ⟨"i2", "wb", "BTC", "sell", 20000000, 20000, 30⟩,
         ⟨"i3", "wc", "BTC", "sell", 20000000, 45000, 30⟩] ∅
        ⟨["0xseed"], ["0xseed"], []⟩).watch.vip ∧
      pyLower "wb" ∈ (scan_for_clusters (fun _ => 30)
        [(⟨"i1", "wa", "BTC", "sell", 20000000, 0, 30⟩ : Trade),
         ⟨"i2", "wb", "BTC", "sell", 20000000, 20000, 30⟩,
         ⟨"i3", "wc", "BTC", "sell", 20000000, 45000, 30⟩] ∅
        ⟨["0xseed"], ["0xseed"], []⟩).watch.vip ∧
      pyLower "wc" ∈ (scan_for_clusters (fun _ => 30)
        [(⟨"i1", "wa", "BTC", "sell", 20000000, 0, 30⟩ : Trade),
         ⟨"i2", "wb", "BTC", "sell", 20000000, 20000, 30⟩,
         ⟨"i3", "wc", "BTC", "sell", 20000000, 45000, 30⟩] ∅
        ⟨["0xseed"], ["0xseed"], []⟩).watch.vip :=
  c1_end_to_end_cluster_promotion "wa" "wb" "wc" "BTC" "sell" "sell" "sell"
    0 20000 45000 ⟨["0xseed"], ["0xseed"], []⟩
    [⟨"i1", "wa", "BTC", "sell", 20000000, 0, 30⟩,
     ⟨"i2", "wb", "BTC", "sell", 20000000, 20000, 30⟩,
     ⟨"i3", "wc", "BTC", "sell", 20000000, 45000, 30⟩] rfl
    (by decide) (by decide) (by decide) (by decide) (by decide) (by decide)
    (by decide) (by decide) (by decide) (by decide) (by decide) (by decide)
    (by decide) (by decide) (by decide) (by decide) (by decide) (by decide)
    (by decide)

end CaptainAhab
